import Mathlib

/-!
Verification development for `alibi_detect/utils/saving.py`: the
save/load/fetch machinery for outlier and adversarial detectors.

The Python module is shallowly embedded: pickled values become the inductive
`PyVal`, the filesystem becomes an explicit `FS` record threaded through the
save/load functions, TensorFlow models become small records carrying a
"keras kind" flag (for the `isinstance` checks) and an opaque weight list,
and Python exceptions become the `PyErr` error type of an `Except` result.
Logger warnings are collected in a `Warnings` list alongside each result.

Classes of this repository that are referenced by `saving.py` but whose own
source is not part of the embedded module (the detector classes, `AE`, `VAE`,
`AEGMM`, `VAEGMM`, `Seq2Seq`, `DenseHidden`) are modelled from the spec; each
such definition carries a doc comment saying so.
-/

namespace AlibiDetect

/-! ## Definitions: the embedding of `saving.py` and its data model -/

/-- Python exceptions raised (directly or indirectly) by the module. -/
inductive PyErr where
  | valueError (msg : String)
  | keyError (key : String)
  | typeError (msg : String)
  | fileNotFoundError (path : String)
  | attributeError (attr : String)
  | unboundLocalError (name : String)
  | urlError (url : String)
  | notImplementedError
deriving DecidableEq

/-- Warnings emitted through `logger.warning`. -/
abbrev Warnings := List String

/-- Python values as they flow through state dictionaries and pickles.
Numbers, tensors and third-party fitted objects are carried opaquely:
`saving.py` never computes with them, it only stores and restores them. -/
inductive PyVal where
  | none
  | pybool (b : Bool)
  | pyint (n : Int)
  | pyfloat (q : ℚ)
  | str (s : String)
  | tensor (data : List ℚ)
  | nparr (data : List ℚ)
  | pyobj (tag : String)
  | dict (entries : List (String × PyVal))
  | list (xs : List PyVal)

/-- `tf.is_tensor`. -/
def is_tensor : PyVal → Bool
  | .tensor _ => true
  | _ => false

/-- Python truthiness (`if not x`). -/
def pyFalsy : PyVal → Bool
  | .none => true
  | .pybool b => !b
  | .pyint n => n = 0
  | .pyfloat q => q = 0
  | .str s => s = ""
  | .tensor d => d.isEmpty
  | .nparr d => d.isEmpty
  | .pyobj _ => false
  | .dict es => es.isEmpty
  | .list xs => xs.isEmpty

/-- First-match association lookup (Python dict access order is irrelevant
here; state dictionaries never repeat keys). -/
def alookup {α : Type} : List (String × α) → String → Option α
  | [], _ => Option.none
  | (k, v) :: rest, q => if q = k then some v else alookup rest q

/-- Python `d[k]` on a value expected to be a dict: `KeyError` when the key is
absent, `TypeError` when the value is not a dict. -/
def dictGet (v : PyVal) (k : String) : Except PyErr PyVal :=
  match v with
  | .dict es =>
    match alookup es k with
    | some x => .ok x
    | Option.none => .error (.keyError k)
  | _ => .error (.typeError "object is not subscriptable")

/-- Rough `'{}'.format(v)` rendering, used only inside error messages. -/
def pyValFormat : PyVal → String
  | .str s => s
  | .none => "None"
  | _ => "<value>"

/-- Decimal digits of `n`, most significant first, given enough fuel. -/
def decChars (fuel : Nat) (n : Nat) : List Char :=
  match fuel with
  | 0 => []
  | f + 1 =>
    if n < 10 then [Nat.digitChar n]
    else decChars f (n / 10) ++ [Nat.digitChar (n % 10)]

/-- Python `str(i)` for a natural number. -/
def pyStr (n : Nat) : String := ⟨decChars (n + 1) n⟩

/-- Which `isinstance` checks an object passes: `tf.keras.Sequential` is a
subclass of `tf.keras.Model`; `notKeras` stands for any other object. -/
inductive KerasKind where
  | sequential
  | kmodel
  | notKeras
deriving DecidableEq

/-- An opaque TensorFlow network: its keras kind plus opaque weights.
`.h5` files store the whole object; checkpoints store only the weights. -/
structure TFObj where
  kind : KerasKind
  weights : List Int

/-- `isinstance(x, tf.keras.Sequential)`. -/
def isSequential (t : TFObj) : Bool :=
  match t.kind with
  | .sequential => true
  | _ => false

/-- `isinstance(x, tf.keras.Model)` (`Sequential` included). -/
def isKerasModel (k : KerasKind) : Bool :=
  match k with
  | .notKeras => false
  | _ => true

/-- File contents: pickles hold a `PyVal`; `.h5` files hold a whole network;
checkpoint index files hold a weight list. -/
inductive Blob where
  | pickle (v : PyVal)
  | h5 (net : TFObj)
  | ckpt (w : List Int)

/-- The filesystem: the set of directories plus path-keyed file contents. -/
structure FS where
  dirs : List String
  files : List (String × Blob)

def FS.empty : FS := ⟨[], []⟩

/-- `os.path.join` for the relative components used by this module. -/
def pjoin (a b : String) : String := a ++ "/" ++ b

def FS.isdir (fs : FS) (p : String) : Bool := fs.dirs.contains p

def FS.mkdir (fs : FS) (p : String) : FS := { fs with dirs := p :: fs.dirs }

/-- Write (create or overwrite) a file. -/
def FS.write (fs : FS) (p : String) (b : Blob) : FS :=
  { fs with files := (p, b) :: fs.files.filter (fun e => !(decide (e.1 = p))) }

/-- `open(p, 'rb')` + read: `FileNotFoundError` when absent. -/
def FS.read (fs : FS) (p : String) : Except PyErr Blob :=
  match alookup fs.files p with
  | some b => .ok b
  | Option.none => .error (.fileNotFoundError p)

/-- The entry name of `p` inside directory `dir` (`p = dir ++ "/" ++ name`
with a nonempty, slash-free name), at the character-list level. -/
def stripChild : List Char → List Char → Option (List Char)
  | [], '/' :: rest =>
    if rest.contains '/' then Option.none
    else if rest.isEmpty then Option.none else some rest
  | c :: cs, d :: ds => if c = d then stripChild cs ds else Option.none
  | _, _ => Option.none

def childName (dir p : String) : Option String :=
  (stripChild dir.data p.data).map String.mk

/-- The names visible in directory `p` (order is irrelevant to the module). -/
def FS.listNames (fs : FS) (p : String) : List String :=
  (fs.files.map Prod.fst ++ fs.dirs).filterMap (childName p)

/-- `os.listdir`: `FileNotFoundError` when the directory does not exist. -/
def FS.listdir (fs : FS) (p : String) : Except PyErr (List String) :=
  if fs.isdir p then .ok (fs.listNames p) else .error (.fileNotFoundError p)

/-- `f.startswith('.')`. -/
def startsWithDot (s : String) : Bool :=
  match s.data with
  | c :: _ => c = '.'
  | [] => false

/-- `tf.keras.models.load_model(p)`. -/
def keras_load_model (fs : FS) (p : String) : Except PyErr TFObj :=
  match fs.read p with
  | .ok (.h5 net) => .ok net
  | .ok _ => .error (.valueError ("Unable to load model at " ++ p ++ "."))
  | .error e => .error e

/-- `m.save_weights(p)`: TensorFlow writes the checkpoint under the sidecar
index file `p ++ ".index"` (the data shards are not modelled separately). -/
def ckptSave (fs : FS) (p : String) (w : List Int) : FS :=
  fs.write (p ++ ".index") (.ckpt w)

/-- `m.load_weights(p)`: reads the checkpoint family saved under prefix `p`. -/
def ckptLoad (fs : FS) (p : String) : Except PyErr (List Int) :=
  match fs.read (p ++ ".index") with
  | .ok (.ckpt w) => .ok w
  | .ok _ => .error (.valueError ("Unable to load weights from " ++ p ++ "."))
  | .error e => .error e

/-- Modelled from the spec: the encoder wrapper of `AE`/`VAE`
(`alibi_detect.models.autoencoder`, not under src/): it carries the
user-supplied `encoder_net`. -/
structure EncoderAE where
  encoder_net : TFObj

/-- Modelled from the spec: the decoder wrapper of `AE`/`VAE`
(`alibi_detect.models.autoencoder`, not under src/): it carries the
user-supplied `decoder_net`. -/
structure DecoderAE where
  decoder_net : TFObj

/-- Modelled from the spec: the `AE` composite (`alibi_detect.models.autoencoder`,
not under src/) wraps an encoder and a decoder and is itself a
`tf.keras.Model` whose weights can be saved/restored. -/
structure AE where
  encoder : EncoderAE
  decoder : DecoderAE
  kind : KerasKind
  weights : List Int

/-- Modelled from the spec: `AE(encoder_net, decoder_net)`. -/
def AE.new (encoder_net decoder_net : TFObj) : AE :=
  ⟨⟨encoder_net⟩, ⟨decoder_net⟩, .kmodel, []⟩

def AE.load_weights (ae : AE) (w : List Int) : AE := { ae with weights := w }

/-- Modelled from the spec: the `VAE` composite
(`alibi_detect.models.autoencoder`, not under src/); `latent_dim` and `beta`
shape the model, so they are constructor arguments stored on the instance. -/
structure VAE where
  encoder : EncoderAE
  decoder : DecoderAE
  latent_dim : PyVal
  beta : PyVal
  kind : KerasKind
  weights : List Int

/-- Modelled from the spec: `VAE(encoder_net, decoder_net, latent_dim, beta=beta)`. -/
def VAE.new (encoder_net decoder_net : TFObj) (latent_dim beta : PyVal) : VAE :=
  ⟨⟨encoder_net⟩, ⟨decoder_net⟩, latent_dim, beta, .kmodel, []⟩

def VAE.load_weights (vae : VAE) (w : List Int) : VAE := { vae with weights := w }

/-- Modelled from the spec: the `AEGMM` composite
(`alibi_detect.models.autoencoder`, not under src/): encoder, decoder and GMM
density net are direct attributes; `n_gmm` and `recon_features` are
constructor arguments stored on the instance. -/
structure AEGMM where
  encoder : TFObj
  decoder : TFObj
  gmm_density : TFObj
  n_gmm : PyVal
  recon_features : PyVal
  kind : KerasKind
  weights : List Int

/-- Modelled from the spec:
`AEGMM(encoder_net, decoder_net, gmm_density_net, n_gmm, recon_features)`. -/
def AEGMM.new (encoder_net decoder_net gmm_density_net : TFObj)
    (n_gmm recon_features : PyVal) : AEGMM :=
  ⟨encoder_net, decoder_net, gmm_density_net, n_gmm, recon_features, .kmodel, []⟩

def AEGMM.load_weights (m : AEGMM) (w : List Int) : AEGMM := { m with weights := w }

/-- Modelled from the spec: the `VAEGMM` composite
(`alibi_detect.models.autoencoder`, not under src/): the encoder is wrapped
(`vaegmm.encoder.encoder_net`), decoder and GMM density net are direct. -/
structure VAEGMM where
  encoder : EncoderAE
  decoder : TFObj
  gmm_density : TFObj
  n_gmm : PyVal
  latent_dim : PyVal
  recon_features : PyVal
  beta : PyVal
  kind : KerasKind
  weights : List Int

/-- Modelled from the spec: `VAEGMM(encoder_net, decoder_net, gmm_density_net,
n_gmm, latent_dim, recon_features, beta)`. -/
def VAEGMM.new (encoder_net decoder_net gmm_density_net : TFObj)
    (n_gmm latent_dim recon_features beta : PyVal) : VAEGMM :=
  ⟨⟨encoder_net⟩, decoder_net, gmm_density_net, n_gmm, latent_dim, recon_features,
    beta, .kmodel, []⟩

def VAEGMM.load_weights (m : VAEGMM) (w : List Int) : VAEGMM := { m with weights := w }

/-- Modelled from the spec: `EncoderLSTM(latent_dim)`
(`alibi_detect.models.autoencoder`, not under src/). -/
structure EncoderLSTM where
  latent_dim : PyVal

/-- Modelled from the spec: `DecoderLSTM(latent_dim, n_features, output_activation)`
(`alibi_detect.models.autoencoder`, not under src/). -/
structure DecoderLSTM where
  latent_dim : PyVal
  n_features : PyVal
  output_activation : PyVal

/-- Modelled from the spec: the `Seq2Seq` composite
(`alibi_detect.models.autoencoder`, not under src/) with its threshold
estimation net and `beta`. -/
structure Seq2Seq where
  encoder_net : EncoderLSTM
  decoder_net : DecoderLSTM
  threshold_net : TFObj
  n_features : PyVal
  beta : PyVal
  kind : KerasKind
  weights : List Int

/-- Modelled from the spec:
`Seq2Seq(encoder_net, decoder_net, threshold_net, n_features, beta=beta)`. -/
def Seq2Seq.new (encoder_net : EncoderLSTM) (decoder_net : DecoderLSTM)
    (threshold_net : TFObj) (n_features beta : PyVal) : Seq2Seq :=
  ⟨encoder_net, decoder_net, threshold_net, n_features, beta, .kmodel, []⟩

def Seq2Seq.load_weights (m : Seq2Seq) (w : List Int) : Seq2Seq := { m with weights := w }

/-- Modelled from the spec: a hidden-layer auxiliary model
(`alibi_detect.ad.adversarialae.DenseHidden`, not under src/): it binds the
classifier to one hidden-layer descriptor `(hidden_layer, output_dim)`.
`kind` is `notKeras` exactly for foreign objects smuggled into the
`model_hl` list (they support no `save_weights`). -/
structure DenseHidden where
  model : Option TFObj
  hidden_layer : String
  output_dim : PyVal
  kind : KerasKind
  weights : List Int

/-- Modelled from the spec: `DenseHidden(model, hidden_layer, output_dim)`. -/
def DenseHidden.new (model : Option TFObj) (hidden_layer : String)
    (output_dim : PyVal) : DenseHidden :=
  ⟨model, hidden_layer, output_dim, .kmodel, []⟩

def DenseHidden.load_weights (m : DenseHidden) (w : List Int) : DenseHidden :=
  { m with weights := w }

/-- `m.save_weights(p)`: an `AttributeError` for objects that are not keras
models (they have no `save_weights` method). -/
def DenseHidden.save_weights (m : DenseHidden) (p : String) (fs : FS) :
    Except PyErr FS :=
  if isKerasModel m.kind then .ok (ckptSave fs p m.weights)
  else .error (.attributeError "save_weights")

/-- Metadata produced by detector construction (`BaseDetector`). -/
def ctorMeta (name : String) : PyVal := .dict [("name", .str name)]

/-- Modelled from the spec: the `IForest` detector class. -/
structure IForest where
  meta : PyVal
  threshold : PyVal
  isolationforest : PyVal

/-- Modelled from the spec: `IForest(threshold=threshold)`. -/
def IForest.new (threshold : PyVal) : IForest :=
  ⟨ctorMeta "IForest", threshold, .none⟩

/-- Modelled from the spec: the `Mahalanobis` detector class; the running
statistics `d_abs`, `clip`, `mean`, `C`, `n` are plain attributes restored by
direct assignment. -/
structure Mahalanobis where
  meta : PyVal
  threshold : PyVal
  n_components : PyVal
  std_clip : PyVal
  start_clip : PyVal
  max_n : PyVal
  cat_vars : PyVal
  ohe : PyVal
  d_abs : PyVal
  clip : PyVal
  mean : PyVal
  C : PyVal
  n : PyVal

/-- Modelled from the spec: `Mahalanobis(threshold=..., n_components=...,
std_clip=..., start_clip=..., max_n=..., cat_vars=..., ohe=...)`; the running
statistics start at their unfit defaults. -/
def Mahalanobis.new (threshold n_components std_clip start_clip max_n cat_vars
    ohe : PyVal) : Mahalanobis :=
  ⟨ctorMeta "Mahalanobis", threshold, n_components, std_clip, start_clip, max_n,
    cat_vars, ohe, .none, .none, .none, .none, .pyint 0⟩

/-- Modelled from the spec: the `OutlierAE` detector class. -/
structure OutlierAE where
  meta : PyVal
  threshold : PyVal
  ae : Option AE

/-- Modelled from the spec: `OutlierAE(threshold=threshold, ae=ae)`. -/
def OutlierAE.new (threshold : PyVal) (ae : Option AE) : OutlierAE :=
  ⟨ctorMeta "OutlierAE", threshold, ae⟩

/-- Modelled from the spec: the `OutlierVAE` detector class. -/
structure OutlierVAE where
  meta : PyVal
  threshold : PyVal
  score_type : PyVal
  samples : PyVal
  vae : Option VAE

/-- Modelled from the spec:
`OutlierVAE(threshold=..., score_type=..., vae=vae, samples=...)`. -/
def OutlierVAE.new (threshold score_type : PyVal) (vae : Option VAE)
    (samples : PyVal) : OutlierVAE :=
  ⟨ctorMeta "OutlierVAE", threshold, score_type, samples, vae⟩

/-- Modelled from the spec: the `OutlierAEGMM` detector class; the GMM mixture
parameters `phi`, `mu`, `cov`, `L`, `log_det_cov` are plain attributes
(absent, i.e. `None`, before fitting). -/
structure OutlierAEGMM where
  meta : PyVal
  threshold : PyVal
  phi : PyVal
  mu : PyVal
  cov : PyVal
  L : PyVal
  log_det_cov : PyVal
  aegmm : Option AEGMM

/-- Modelled from the spec: `OutlierAEGMM(threshold=threshold, aegmm=aegmm)`. -/
def OutlierAEGMM.new (threshold : PyVal) (aegmm : Option AEGMM) : OutlierAEGMM :=
  ⟨ctorMeta "OutlierAEGMM", threshold, .none, .none, .none, .none, .none, aegmm⟩

/-- Modelled from the spec: the `OutlierVAEGMM` detector class. -/
structure OutlierVAEGMM where
  meta : PyVal
  threshold : PyVal
  samples : PyVal
  phi : PyVal
  mu : PyVal
  cov : PyVal
  L : PyVal
  log_det_cov : PyVal
  vaegmm : Option VAEGMM

/-- Modelled from the spec:
`OutlierVAEGMM(threshold=threshold, vaegmm=vaegmm, samples=samples)`. -/
def OutlierVAEGMM.new (threshold : PyVal) (vaegmm : Option VAEGMM)
    (samples : PyVal) : OutlierVAEGMM :=
  ⟨ctorMeta "OutlierVAEGMM", threshold, samples, .none, .none, .none, .none,
    .none, vaegmm⟩

/-- Modelled from the spec: the `AdversarialAE` detector class. -/
structure AdversarialAE where
  meta : PyVal
  threshold : PyVal
  ae : Option AE
  model : Option TFObj
  model_hl : Option (List DenseHidden)
  w_model_hl : PyVal
  temperature : PyVal

/-- Modelled from the spec: the `hidden_layer_kld` attribute of
`AdversarialAE` (`alibi_detect.ad.adversarialae`, not under src/). The spec
makes the hidden-layer descriptor mapping the source of truth for the
`model_hl` list (one auxiliary model per entry, in insertion order) and
requires it to round-trip (§3, §4.3, §8), so the constructor keeps it
consistent with `model_hl`: one `(hidden_layer, output_dim)` entry per
auxiliary model, in list order. -/
def AdversarialAE.hidden_layer_kld (ad : AdversarialAE) : PyVal :=
  match ad.model_hl with
  | Option.none => .none
  | some l => .dict (l.map (fun m => (m.hidden_layer, m.output_dim)))

/-- Modelled from the spec: `AdversarialAE(threshold=..., ae=ae, model=model,
model_hl=model_hl, w_model_hl=..., temperature=...)`. -/
def AdversarialAE.new (threshold : PyVal) (ae : Option AE) (model : Option TFObj)
    (model_hl : Option (List DenseHidden)) (w_model_hl temperature : PyVal) :
    AdversarialAE :=
  ⟨ctorMeta "AdversarialAE", threshold, ae, model, model_hl, w_model_hl, temperature⟩

/-- Modelled from the spec: the `OutlierProphet` detector class. -/
structure OutlierProphet where
  meta : PyVal
  model : PyVal
  cap : PyVal

/-- Modelled from the spec: `OutlierProphet(cap=cap)`. -/
def OutlierProphet.new (cap : PyVal) : OutlierProphet :=
  ⟨ctorMeta "OutlierProphet", .none, cap⟩

/-- Modelled from the spec: the `SpectralResidual` detector class. -/
structure SpectralResidual where
  meta : PyVal
  threshold : PyVal
  window_amp : PyVal
  window_local : PyVal
  n_est_points : PyVal
  n_grad_points : PyVal

/-- Modelled from the spec: `SpectralResidual(threshold=..., window_amp=...,
window_local=..., n_est_points=..., n_grad_points=...)`. -/
def SpectralResidual.new (threshold window_amp window_local n_est_points
    n_grad_points : PyVal) : SpectralResidual :=
  ⟨ctorMeta "SpectralResidual", threshold, window_amp, window_local,
    n_est_points, n_grad_points⟩

/-- Modelled from the spec: the `OutlierSeq2Seq` detector class; `shape` is the
`(-1, seq_len, n_features)` tuple fixed at construction. -/
structure OutlierSeq2Seq where
  meta : PyVal
  threshold : PyVal
  shape : List PyVal
  latent_dim : PyVal
  output_activation : PyVal
  seq2seq : Option Seq2Seq

/-- Modelled from the spec: `OutlierSeq2Seq(n_features, seq_len,
threshold=..., seq2seq=..., latent_dim=..., output_activation=...)`; the
constructor records `shape = (-1, seq_len, n_features)`. -/
def OutlierSeq2Seq.new (n_features seq_len threshold : PyVal)
    (seq2seq : Option Seq2Seq) (latent_dim output_activation : PyVal) :
    OutlierSeq2Seq :=
  ⟨ctorMeta "OutlierSeq2Seq", threshold, [.pyint (-1), seq_len, n_features],
    latent_dim, output_activation, seq2seq⟩

/-- The union of detector classes handled by `save_detector`/`load_detector`. -/
inductive Detector where
  | adversarialAE (ad : AdversarialAE)
  | iforest (od : IForest)
  | mahalanobis (od : Mahalanobis)
  | outlierAE (od : OutlierAE)
  | outlierAEGMM (od : OutlierAEGMM)
  | outlierProphet (od : OutlierProphet)
  | outlierSeq2Seq (od : OutlierSeq2Seq)
  | outlierVAE (od : OutlierVAE)
  | outlierVAEGMM (od : OutlierVAEGMM)
  | spectralResidual (od : SpectralResidual)

/-- `detector.meta`. -/
def Detector.metaOf : Detector → PyVal
  | .adversarialAE ad => ad.meta
  | .iforest od => od.meta
  | .mahalanobis od => od.meta
  | .outlierAE od => od.meta
  | .outlierAEGMM od => od.meta
  | .outlierProphet od => od.meta
  | .outlierSeq2Seq od => od.meta
  | .outlierVAE od => od.meta
  | .outlierVAEGMM od => od.meta
  | .spectralResidual od => od.meta

/-- `detector.meta = meta_dict`. -/
def Detector.setMeta : Detector → PyVal → Detector
  | .adversarialAE ad, m => .adversarialAE { ad with meta := m }
  | .iforest od, m => .iforest { od with meta := m }
  | .mahalanobis od, m => .mahalanobis { od with meta := m }
  | .outlierAE od, m => .outlierAE { od with meta := m }
  | .outlierAEGMM od, m => .outlierAEGMM { od with meta := m }
  | .outlierProphet od, m => .outlierProphet { od with meta := m }
  | .outlierSeq2Seq od, m => .outlierSeq2Seq { od with meta := m }
  | .outlierVAE od, m => .outlierVAE { od with meta := m }
  | .outlierVAEGMM od, m => .outlierVAEGMM { od with meta := m }
  | .spectralResidual od, m => .spectralResidual { od with meta := m }

/-- The class name of a detector, as it appears in `meta['name']`. -/
def Detector.nameOf : Detector → String
  | .adversarialAE _ => "AdversarialAE"
  | .iforest _ => "IForest"
  | .mahalanobis _ => "Mahalanobis"
  | .outlierAE _ => "OutlierAE"
  | .outlierAEGMM _ => "OutlierAEGMM"
  | .outlierProphet _ => "OutlierProphet"
  | .outlierSeq2Seq _ => "OutlierSeq2Seq"
  | .outlierVAE _ => "OutlierVAE"
  | .outlierVAEGMM _ => "OutlierVAEGMM"
  | .spectralResidual _ => "SpectralResidual"

/-- `DEFAULT_DETECTORS` (saving.py:35). -/
def DEFAULT_DETECTORS : List String :=
  ["AdversarialAE", "IForest", "Mahalanobis", "OutlierAE", "OutlierAEGMM",
   "OutlierProphet", "OutlierSeq2Seq", "OutlierVAE", "OutlierVAEGMM",
   "SpectralResidual"]

/-- `state_iforest` (saving.py:115). -/
def state_iforest (od : IForest) : PyVal :=
  .dict [("threshold", od.threshold), ("isolationforest", od.isolationforest)]

/-- `state_mahalanobis` (saving.py:129). -/
def state_mahalanobis (od : Mahalanobis) : PyVal :=
  .dict [("threshold", od.threshold), ("n_components", od.n_components),
    ("std_clip", od.std_clip), ("start_clip", od.start_clip),
    ("max_n", od.max_n), ("cat_vars", od.cat_vars), ("ohe", od.ohe),
    ("d_abs", od.d_abs), ("clip", od.clip), ("mean", od.mean),
    ("C", od.C), ("n", od.n)]

/-- `state_ae` (saving.py:153). -/
def state_ae (od : OutlierAE) : PyVal :=
  .dict [("threshold", od.threshold)]

/-- `state_vae` (saving.py:166); `od.vae.latent_dim` raises if `vae` is `None`. -/
def state_vae (od : OutlierVAE) : Except PyErr PyVal :=
  match od.vae with
  | Option.none => .error (.attributeError "latent_dim")
  | some vae =>
    .ok (.dict [("threshold", od.threshold), ("score_type", od.score_type),
      ("samples", od.samples), ("latent_dim", vae.latent_dim),
      ("beta", vae.beta)])

/-- `state_aegmm` (saving.py:183): warns when the GMM mixture parameters are
not all tensors, then extracts the full state either way. -/
def state_aegmm (od : OutlierAEGMM) : Except PyErr (PyVal × Warnings) :=
  match od.aegmm with
  | Option.none => .error (.attributeError "n_gmm")
  | some aegmm =>
    let w : Warnings :=
      if [od.phi, od.mu, od.cov, od.L, od.log_det_cov].all is_tensor then []
      else ["Saving AEGMM detector that has not been fit."]
    .ok (.dict [("threshold", od.threshold), ("n_gmm", aegmm.n_gmm),
      ("recon_features", aegmm.recon_features), ("phi", od.phi),
      ("mu", od.mu), ("cov", od.cov), ("L", od.L),
      ("log_det_cov", od.log_det_cov)], w)

/-- `state_vaegmm` (saving.py:206). -/
def state_vaegmm (od : OutlierVAEGMM) : Except PyErr (PyVal × Warnings) :=
  match od.vaegmm with
  | Option.none => .error (.attributeError "n_gmm")
  | some vaegmm =>
    let w : Warnings :=
      if [od.phi, od.mu, od.cov, od.L, od.log_det_cov].all is_tensor then []
      else ["Saving VAEGMM detector that has not been fit."]
    .ok (.dict [("threshold", od.threshold), ("samples", od.samples),
      ("n_gmm", vaegmm.n_gmm), ("latent_dim", vaegmm.latent_dim),
      ("beta", vaegmm.beta), ("recon_features", vaegmm.recon_features),
      ("phi", od.phi), ("mu", od.mu), ("cov", od.cov), ("L", od.L),
      ("log_det_cov", od.log_det_cov)], w)

/-- `state_adv_ae` (saving.py:232). -/
def state_adv_ae (ad : AdversarialAE) : PyVal :=
  .dict [("threshold", ad.threshold), ("w_model_hl", ad.w_model_hl),
    ("temperature", ad.temperature),
    ("hidden_layer_kld", ad.hidden_layer_kld)]

/-- `state_prophet` (saving.py:248). -/
def state_prophet (od : OutlierProphet) : PyVal :=
  .dict [("model", od.model), ("cap", od.cap)]

/-- `state_sr` (saving.py:262). -/
def state_sr (od : SpectralResidual) : PyVal :=
  .dict [("threshold", od.threshold), ("window_amp", od.window_amp),
    ("window_local", od.window_local), ("n_est_points", od.n_est_points),
    ("n_grad_points", od.n_grad_points)]

/-- `state_s2s` (saving.py:279); `od.seq2seq.beta` raises if `seq2seq` is `None`. -/
def state_s2s (od : OutlierSeq2Seq) : Except PyErr PyVal :=
  match od.seq2seq with
  | Option.none => .error (.attributeError "beta")
  | some seq2seq =>
    .ok (.dict [("threshold", od.threshold), ("beta", seq2seq.beta),
      ("shape", .list od.shape), ("latent_dim", od.latent_dim),
      ("output_activation", od.output_activation)])

/-- The shared "create the save directory if missing, with a warning" step. -/
def ensureDir (filepath : String) (fs : FS) : FS × Warnings :=
  if fs.isdir filepath then (fs, [])
  else (fs.mkdir filepath,
    ["Directory " ++ filepath ++ " does not exist and is now created."])

/-- The shared "create `model/` if missing" step. -/
def ensureModelDir (filepath : String) (fs : FS) : FS :=
  let model_dir := pjoin filepath "model"
  if fs.isdir model_dir then fs else fs.mkdir model_dir

/-- `save_tf_ae` (saving.py:296); the source reads only `detector.ae`, so the
embedding takes that attribute (an `AttributeError` surfaces if it is `None`). -/
def save_tf_ae (ae? : Option AE) (filepath : String) (fs : FS) :
    Except PyErr (FS × Warnings) :=
  match ae? with
  | Option.none => .error (.attributeError "encoder")
  | some ae =>
    let (fs, w0) := ensureDir filepath fs
    let fs := ensureModelDir filepath fs
    let model_dir := pjoin filepath "model"
    let (fs, w1) :=
      if isSequential ae.encoder.encoder_net then
        (fs.write (pjoin model_dir "encoder_net.h5") (.h5 ae.encoder.encoder_net), [])
      else (fs, ["No `tf.keras.Sequential` encoder detected. No encoder saved."])
    let (fs, w2) :=
      if isSequential ae.decoder.decoder_net then
        (fs.write (pjoin model_dir "decoder_net.h5") (.h5 ae.decoder.decoder_net), [])
      else (fs, ["No `tf.keras.Sequential` decoder detected. No decoder saved."])
    let (fs, w3) :=
      if isKerasModel ae.kind then
        (ckptSave fs (pjoin model_dir "ae.ckpt") ae.weights, [])
      else (fs, ["No `tf.keras.Model` ae detected. No ae saved."])
    .ok (fs, w0 ++ w1 ++ w2 ++ w3)

/-- `save_tf_vae` (saving.py:330). -/
def save_tf_vae (vae? : Option VAE) (filepath : String) (fs : FS) :
    Except PyErr (FS × Warnings) :=
  match vae? with
  | Option.none => .error (.attributeError "encoder")
  | some vae =>
    let (fs, w0) := ensureDir filepath fs
    let fs := ensureModelDir filepath fs
    let model_dir := pjoin filepath "model"
    let (fs, w1) :=
      if isSequential vae.encoder.encoder_net then
        (fs.write (pjoin model_dir "encoder_net.h5") (.h5 vae.encoder.encoder_net), [])
      else (fs, ["No `tf.keras.Sequential` encoder detected. No encoder saved."])
    let (fs, w2) :=
      if isSequential vae.decoder.decoder_net then
        (fs.write (pjoin model_dir "decoder_net.h5") (.h5 vae.decoder.decoder_net), [])
      else (fs, ["No `tf.keras.Sequential` decoder detected. No decoder saved."])
    let (fs, w3) :=
      if isKerasModel vae.kind then
        (ckptSave fs (pjoin model_dir "vae.ckpt") vae.weights, [])
      else (fs, ["No `tf.keras.Model` vae detected. No vae saved."])
    .ok (fs, w0 ++ w1 ++ w2 ++ w3)

/-- `save_tf_model` (saving.py:364). -/
def save_tf_model (model : Option TFObj) (filepath : String)
    (save_dir : Option String) (fs : FS) : Except PyErr (FS × Warnings) :=
  let (fs, w0) := ensureDir filepath fs
  let model_dir :=
    match save_dir with
    | Option.none => pjoin filepath "model"
    | some d => pjoin filepath d
  let fs := if fs.isdir model_dir then fs else fs.mkdir model_dir
  match model with
  | some m =>
    if isKerasModel m.kind then
      .ok (fs.write (pjoin model_dir "model.h5") (.h5 m), w0)
    else .ok (fs, w0 ++ ["No `tf.keras.Model` detected. No classification model saved."])
  | Option.none =>
    .ok (fs, w0 ++ ["No `tf.keras.Model` detected. No classification model saved."])

/-- The write loop of `save_tf_hl` (saving.py:419): each model in the list is
saved to a positional checkpoint, without any shape check. -/
def save_hl_loop (model_dir : String) :
    List DenseHidden → Nat → FS → Except PyErr FS
  | [], _, fs => .ok fs
  | m :: rest, i, fs =>
    match m.save_weights (pjoin model_dir ("model_hl_" ++ pyStr i ++ ".ckpt")) fs with
    | .error e => .error e
    | .ok fs => save_hl_loop model_dir rest (i + 1) fs

/-- `save_tf_hl` (saving.py:397): anything that is not a list is skipped
silently (the whole body is guarded by `isinstance(models, list)`). -/
def save_tf_hl (models : Option (List DenseHidden)) (filepath : String)
    (fs : FS) : Except PyErr (FS × Warnings) :=
  match models with
  | Option.none => .ok (fs, [])
  | some l =>
    let (fs, w0) := ensureDir filepath fs
    let fs := ensureModelDir filepath fs
    let model_dir := pjoin filepath "model"
    match save_hl_loop model_dir l 0 fs with
    | .error e => .error e
    | .ok fs => .ok (fs, w0)

/-- `save_tf_aegmm` (saving.py:424); the source reads only `od.aegmm`. -/
def save_tf_aegmm (aegmm? : Option AEGMM) (filepath : String) (fs : FS) :
    Except PyErr (FS × Warnings) :=
  match aegmm? with
  | Option.none => .error (.attributeError "encoder")
  | some m =>
    let (fs, w0) := ensureDir filepath fs
    let fs := ensureModelDir filepath fs
    let model_dir := pjoin filepath "model"
    let (fs, w1) :=
      if isSequential m.encoder then
        (fs.write (pjoin model_dir "encoder_net.h5") (.h5 m.encoder), [])
      else (fs, ["No `tf.keras.Sequential` encoder detected. No encoder saved."])
    let (fs, w2) :=
      if isSequential m.decoder then
        (fs.write (pjoin model_dir "decoder_net.h5") (.h5 m.decoder), [])
      else (fs, ["No `tf.keras.Sequential` decoder detected. No decoder saved."])
    let (fs, w3) :=
      if isSequential m.gmm_density then
        (fs.write (pjoin model_dir "gmm_density_net.h5") (.h5 m.gmm_density), [])
      else (fs, ["No `tf.keras.Sequential` GMM density net detected. No GMM density net saved."])
    let (fs, w4) :=
      if isKerasModel m.kind then
        (ckptSave fs (pjoin model_dir "aegmm.ckpt") m.weights, [])
      else (fs, ["No `tf.keras.Model` AEGMM detected. No AEGMM saved."])
    .ok (fs, w0 ++ w1 ++ w2 ++ w3 ++ w4)

/-- `save_tf_vaegmm` (saving.py:462); the source reads only `od.vaegmm`. -/
def save_tf_vaegmm (vaegmm? : Option VAEGMM) (filepath : String) (fs : FS) :
    Except PyErr (FS × Warnings) :=
  match vaegmm? with
  | Option.none => .error (.attributeError "encoder")
  | some m =>
    let (fs, w0) := ensureDir filepath fs
    let fs := ensureModelDir filepath fs
    let model_dir := pjoin filepath "model"
    let (fs, w1) :=
      if isSequential m.encoder.encoder_net then
        (fs.write (pjoin model_dir "encoder_net.h5") (.h5 m.encoder.encoder_net), [])
      else (fs, ["No `tf.keras.Sequential` encoder detected. No encoder saved."])
    let (fs, w2) :=
      if isSequential m.decoder then
        (fs.write (pjoin model_dir "decoder_net.h5") (.h5 m.decoder), [])
      else (fs, ["No `tf.keras.Sequential` decoder detected. No decoder saved."])
    let (fs, w3) :=
      if isSequential m.gmm_density then
        (fs.write (pjoin model_dir "gmm_density_net.h5") (.h5 m.gmm_density), [])
      else (fs, ["No `tf.keras.Sequential` GMM density net detected. No GMM density net saved."])
    let (fs, w4) :=
      if isKerasModel m.kind then
        (ckptSave fs (pjoin model_dir "vaegmm.ckpt") m.weights, [])
      else (fs, ["No `tf.keras.Model` VAEGMM detected. No VAEGMM saved."])
    .ok (fs, w0 ++ w1 ++ w2 ++ w3 ++ w4)

/-- `save_tf_s2s` (saving.py:500); the source reads only `od.seq2seq`. -/
def save_tf_s2s (seq2seq? : Option Seq2Seq) (filepath : String) (fs : FS) :
    Except PyErr (FS × Warnings) :=
  match seq2seq? with
  | Option.none => .error (.attributeError "threshold_net")
  | some m =>
    let (fs, w0) := ensureDir filepath fs
    let fs := ensureModelDir filepath fs
    let model_dir := pjoin filepath "model"
    let (fs, w1) :=
      if isSequential m.threshold_net then
        (fs.write (pjoin model_dir "threshold_net.h5") (.h5 m.threshold_net), [])
      else (fs, ["No `tf.keras.Sequential` threshold estimation net detected. No threshold net saved."])
    let (fs, w2) :=
      if isKerasModel m.kind then
        (ckptSave fs (pjoin model_dir "seq2seq.ckpt") m.weights, [])
      else (fs, ["No `tf.keras.Model` Seq2Seq detected. No Seq2Seq model saved."])
    .ok (fs, w0 ++ w1 ++ w2)

/-- The state-extraction if-chain of `save_detector` (saving.py:74-93);
dispatch is on the metadata name, so calling a `state_*` function on a
detector of another class is an attribute-access failure. -/
def state_branch (detector_name : String) (d : Detector) :
    Except PyErr (PyVal × Warnings) :=
  if detector_name = "OutlierAE" then
    match d with
    | .outlierAE od => .ok (state_ae od, [])
    | _ => .error (.attributeError "threshold")
  else if detector_name = "OutlierVAE" then
    match d with
    | .outlierVAE od => (state_vae od).map (fun v => (v, []))
    | _ => .error (.attributeError "vae")
  else if detector_name = "Mahalanobis" then
    match d with
    | .mahalanobis od => .ok (state_mahalanobis od, [])
    | _ => .error (.attributeError "n_components")
  else if detector_name = "IForest" then
    match d with
    | .iforest od => .ok (state_iforest od, [])
    | _ => .error (.attributeError "isolationforest")
  else if detector_name = "OutlierAEGMM" then
    match d with
    | .outlierAEGMM od => state_aegmm od
    | _ => .error (.attributeError "aegmm")
  else if detector_name = "OutlierVAEGMM" then
    match d with
    | .outlierVAEGMM od => state_vaegmm od
    | _ => .error (.attributeError "vaegmm")
  else if detector_name = "AdversarialAE" then
    match d with
    | .adversarialAE ad => .ok (state_adv_ae ad, [])
    | _ => .error (.attributeError "w_model_hl")
  else if detector_name = "OutlierProphet" then
    match d with
    | .outlierProphet od => .ok (state_prophet od, [])
    | _ => .error (.attributeError "cap")
  else if detector_name = "SpectralResidual" then
    match d with
    | .spectralResidual od => .ok (state_sr od, [])
    | _ => .error (.attributeError "window_amp")
  else if detector_name = "OutlierSeq2Seq" then
    match d with
    | .outlierSeq2Seq od => (state_s2s od).map (fun v => (v, []))
    | _ => .error (.attributeError "seq2seq")
  else .error (.unboundLocalError "state_dict")

/-- The model-saving if-chain of `save_detector` (saving.py:99-112); kinds
without TensorFlow artifacts fall through to a no-op. -/
def model_branch (detector_name : String) (d : Detector) (filepath : String)
    (fs : FS) : Except PyErr (FS × Warnings) :=
  if detector_name = "OutlierAE" then
    match d with
    | .outlierAE od => save_tf_ae od.ae filepath fs
    | _ => .error (.attributeError "ae")
  else if detector_name = "OutlierVAE" then
    match d with
    | .outlierVAE od => save_tf_vae od.vae filepath fs
    | _ => .error (.attributeError "vae")
  else if detector_name = "OutlierAEGMM" then
    match d with
    | .outlierAEGMM od => save_tf_aegmm od.aegmm filepath fs
    | _ => .error (.attributeError "aegmm")
  else if detector_name = "OutlierVAEGMM" then
    match d with
    | .outlierVAEGMM od => save_tf_vaegmm od.vaegmm filepath fs
    | _ => .error (.attributeError "vaegmm")
  else if detector_name = "AdversarialAE" then
    match d with
    | .adversarialAE ad =>
      match save_tf_ae ad.ae filepath fs with
      | .error e => .error e
      | .ok (fs, w1) =>
        match save_tf_model ad.model filepath Option.none fs with
        | .error e => .error e
        | .ok (fs, w2) =>
          match save_tf_hl ad.model_hl filepath fs with
          | .error e => .error e
          | .ok (fs, w3) => .ok (fs, w1 ++ w2 ++ w3)
    | _ => .error (.attributeError "ae")
  else if detector_name = "OutlierSeq2Seq" then
    match d with
    | .outlierSeq2Seq od => save_tf_s2s od.seq2seq filepath fs
    | _ => .error (.attributeError "seq2seq")
  else .ok (fs, [])

/-- `save_detector` (saving.py:49). -/
def save_detector (detector : Detector) (filepath : String) (fs : FS) :
    Except PyErr (FS × Warnings) :=
  match dictGet detector.metaOf "name" with
  | .error e => .error e
  | .ok nameV =>
    match nameV with
    | .str detector_name =>
      if detector_name ∈ DEFAULT_DETECTORS then
        let (fs, w0) := ensureDir filepath fs
        let fs := fs.write (pjoin filepath "meta.pickle") (.pickle detector.metaOf)
        match state_branch detector_name detector with
        | .error e => .error e
        | .ok (state_dict, w1) =>
          let fs := fs.write (pjoin filepath (detector_name ++ ".pickle"))
            (.pickle state_dict)
          match model_branch detector_name detector filepath fs with
          | .error e => .error e
          | .ok (fs, w2) => .ok (fs, w0 ++ w1 ++ w2)
      else .error (.valueError (detector_name ++ " is not supported by `save_detector`."))
    | v => .error (.valueError (pyValFormat v ++ " is not supported by `save_detector`."))

/-- `load_tf_model` (saving.py:591). -/
def load_tf_model (filepath : String) (load_dir : Option String) (fs : FS) :
    Except PyErr (Option TFObj × Warnings) :=
  let model_dir :=
    match load_dir with
    | Option.none => pjoin filepath "model"
    | some d => pjoin filepath d
  match fs.listdir model_dir with
  | .error e => .error e
  | .ok entries =>
    if (entries.filter (fun f => !(startsWithDot f))).contains "model.h5" then
      match keras_load_model fs (pjoin model_dir "model.h5") with
      | .error e => .error e
      | .ok m => .ok (some m, [])
    else .ok (Option.none, ["No model found in " ++ model_dir ++ "."])

/-- The reconstruction loop of `load_tf_hl` (saving.py:639): the `i`-th entry
of the hidden-layer descriptor mapping, in insertion order, is bound to the
`i`-th positional checkpoint. -/
def load_hl_loop (fs : FS) (model_dir : String) (model : Option TFObj) :
    List (String × PyVal) → Nat → Except PyErr (List DenseHidden)
  | [], _ => .ok []
  | (hidden_layer, output_dim) :: rest, i =>
    let m := DenseHidden.new model hidden_layer output_dim
    match ckptLoad fs (pjoin model_dir ("model_hl_" ++ pyStr i ++ ".ckpt")) with
    | .error e => .error e
    | .ok w =>
      match load_hl_loop fs model_dir model rest (i + 1) with
      | .error e => .error e
      | .ok tail => .ok (m.load_weights w :: tail)

/-- `load_tf_hl` (saving.py:617). -/
def load_tf_hl (filepath : String) (model : Option TFObj) (state_dict : PyVal)
    (fs : FS) : Except PyErr (Option (List DenseHidden)) :=
  let model_dir := pjoin filepath "model"
  match dictGet state_dict "hidden_layer_kld" with
  | .error e => .error e
  | .ok hidden_layer_kld =>
    if pyFalsy hidden_layer_kld then .ok Option.none
    else
      match hidden_layer_kld with
      | .dict entries =>
        match load_hl_loop fs model_dir model entries 0 with
        | .error e => .error e
        | .ok model_hl => .ok (some model_hl)
      | _ => .error (.attributeError "items")

/-- `load_tf_ae` (saving.py:646). -/
def load_tf_ae (filepath : String) (fs : FS) :
    Except PyErr (Option AE × Warnings) :=
  let model_dir := pjoin filepath "model"
  match fs.listdir model_dir with
  | .error e => .error e
  | .ok entries =>
    if (entries.filter (fun f => !(startsWithDot f))).isEmpty then
      .ok (Option.none, ["No encoder, decoder or ae found in " ++ model_dir ++ "."])
    else
      match keras_load_model fs (pjoin model_dir "encoder_net.h5") with
      | .error e => .error e
      | .ok encoder_net =>
        match keras_load_model fs (pjoin model_dir "decoder_net.h5") with
        | .error e => .error e
        | .ok decoder_net =>
          match ckptLoad fs (pjoin model_dir "ae.ckpt") with
          | .error e => .error e
          | .ok w => .ok (some ((AE.new encoder_net decoder_net).load_weights w), [])

/-- `load_tf_vae` (saving.py:670). -/
def load_tf_vae (filepath : String) (state_dict : PyVal) (fs : FS) :
    Except PyErr (Option VAE × Warnings) :=
  let model_dir := pjoin filepath "model"
  match fs.listdir model_dir with
  | .error e => .error e
  | .ok entries =>
    if (entries.filter (fun f => !(startsWithDot f))).isEmpty then
      .ok (Option.none, ["No encoder, decoder or vae found in " ++ model_dir ++ "."])
    else
      match keras_load_model fs (pjoin model_dir "encoder_net.h5") with
      | .error e => .error e
      | .ok encoder_net =>
        match keras_load_model fs (pjoin model_dir "decoder_net.h5") with
        | .error e => .error e
        | .ok decoder_net =>
          match dictGet state_dict "latent_dim" with
          | .error e => .error e
          | .ok latent_dim =>
            match dictGet state_dict "beta" with
            | .error e => .error e
            | .ok beta =>
              match ckptLoad fs (pjoin model_dir "vae.ckpt") with
              | .error e => .error e
              | .ok w =>
                .ok (some ((VAE.new encoder_net decoder_net latent_dim beta).load_weights w), [])

/-- `load_tf_aegmm` (saving.py:697). -/
def load_tf_aegmm (filepath : String) (state_dict : PyVal) (fs : FS) :
    Except PyErr (Option AEGMM × Warnings) :=
  let model_dir := pjoin filepath "model"
  match fs.listdir model_dir with
  | .error e => .error e
  | .ok entries =>
    if (entries.filter (fun f => !(startsWithDot f))).isEmpty then
      .ok (Option.none,
        ["No encoder, decoder, gmm density net or aegmm found in " ++ model_dir ++ "."])
    else
      match keras_load_model fs (pjoin model_dir "encoder_net.h5") with
      | .error e => .error e
      | .ok encoder_net =>
        match keras_load_model fs (pjoin model_dir "decoder_net.h5") with
        | .error e => .error e
        | .ok decoder_net =>
          match keras_load_model fs (pjoin model_dir "gmm_density_net.h5") with
          | .error e => .error e
          | .ok gmm_density_net =>
            match dictGet state_dict "n_gmm" with
            | .error e => .error e
            | .ok n_gmm =>
              match dictGet state_dict "recon_features" with
              | .error e => .error e
              | .ok recon_features =>
                match ckptLoad fs (pjoin model_dir "aegmm.ckpt") with
                | .error e => .error e
                | .ok w =>
                  .ok (some ((AEGMM.new encoder_net decoder_net gmm_density_net
                    n_gmm recon_features).load_weights w), [])

/-- `load_tf_vaegmm` (saving.py:725). -/
def load_tf_vaegmm (filepath : String) (state_dict : PyVal) (fs : FS) :
    Except PyErr (Option VAEGMM × Warnings) :=
  let model_dir := pjoin filepath "model"
  match fs.listdir model_dir with
  | .error e => .error e
  | .ok entries =>
    if (entries.filter (fun f => !(startsWithDot f))).isEmpty then
      .ok (Option.none,
        ["No encoder, decoder, gmm density net or vaegmm found in " ++ model_dir ++ "."])
    else
      match keras_load_model fs (pjoin model_dir "encoder_net.h5") with
      | .error e => .error e
      | .ok encoder_net =>
        match keras_load_model fs (pjoin model_dir "decoder_net.h5") with
        | .error e => .error e
        | .ok decoder_net =>
          match keras_load_model fs (pjoin model_dir "gmm_density_net.h5") with
          | .error e => .error e
          | .ok gmm_density_net =>
            match dictGet state_dict "n_gmm" with
            | .error e => .error e
            | .ok n_gmm =>
              match dictGet state_dict "latent_dim" with
              | .error e => .error e
              | .ok latent_dim =>
                match dictGet state_dict "recon_features" with
                | .error e => .error e
                | .ok recon_features =>
                  match dictGet state_dict "beta" with
                  | .error e => .error e
                  | .ok beta =>
                    match ckptLoad fs (pjoin model_dir "vaegmm.ckpt") with
                    | .error e => .error e
                    | .ok w =>
                      .ok (some ((VAEGMM.new encoder_net decoder_net
                        gmm_density_net n_gmm latent_dim recon_features
                        beta).load_weights w), [])

/-- `load_tf_s2s` (saving.py:754); `state_dict['shape'][-1]` is the feature
count (an empty shape is an index error, a non-list shape a type error). -/
def load_tf_s2s (filepath : String) (state_dict : PyVal) (fs : FS) :
    Except PyErr (Option Seq2Seq × Warnings) :=
  let model_dir := pjoin filepath "model"
  match fs.listdir model_dir with
  | .error e => .error e
  | .ok entries =>
    if (entries.filter (fun f => !(startsWithDot f))).isEmpty then
      .ok (Option.none,
        ["No seq2seq or threshold estimation net found in " ++ model_dir ++ "."])
    else
      match keras_load_model fs (pjoin model_dir "threshold_net.h5") with
      | .error e => .error e
      | .ok threshold_net =>
        match dictGet state_dict "latent_dim" with
        | .error e => .error e
        | .ok latent_dim =>
          match dictGet state_dict "shape" with
          | .error e => .error e
          | .ok shape =>
            match shape with
            | .list l =>
              match l.getLast? with
              | Option.none => .error (.keyError "shape index out of range")
              | some n_features =>
                match dictGet state_dict "output_activation" with
                | .error e => .error e
                | .ok output_activation =>
                  match dictGet state_dict "beta" with
                  | .error e => .error e
                  | .ok beta =>
                    let encoder_net : EncoderLSTM := ⟨latent_dim⟩
                    let decoder_net : DecoderLSTM :=
                      ⟨latent_dim, n_features, output_activation⟩
                    match ckptLoad fs (pjoin model_dir "seq2seq.ckpt") with
                    | .error e => .error e
                    | .ok w =>
                      .ok (some ((Seq2Seq.new encoder_net decoder_net
                        threshold_net n_features beta).load_weights w), [])
            | _ => .error (.typeError "object is not subscriptable")

/-- `init_od_ae` (saving.py:771). -/
def init_od_ae (state_dict : PyVal) (ae : Option AE) : Except PyErr OutlierAE := do
  let threshold ← dictGet state_dict "threshold"
  .ok (OutlierAE.new threshold ae)

/-- `init_od_vae` (saving.py:791). -/
def init_od_vae (state_dict : PyVal) (vae : Option VAE) : Except PyErr OutlierVAE := do
  let threshold ← dictGet state_dict "threshold"
  let score_type ← dictGet state_dict "score_type"
  let samples ← dictGet state_dict "samples"
  .ok (OutlierVAE.new threshold score_type vae samples)

/-- `init_ad_ae` (saving.py:814). -/
def init_ad_ae (state_dict : PyVal) (ae : Option AE) (model : Option TFObj)
    (model_hl : Option (List DenseHidden)) : Except PyErr AdversarialAE := do
  let threshold ← dictGet state_dict "threshold"
  let w_model_hl ← dictGet state_dict "w_model_hl"
  let temperature ← dictGet state_dict "temperature"
  .ok (AdversarialAE.new threshold ae model model_hl w_model_hl temperature)

/-- `init_od_aegmm` (saving.py:845): constructor plus direct assignment of the
five GMM mixture parameters, warning when they are not all tensors. -/
def init_od_aegmm (state_dict : PyVal) (aegmm : Option AEGMM) :
    Except PyErr (OutlierAEGMM × Warnings) := do
  let threshold ← dictGet state_dict "threshold"
  let phi ← dictGet state_dict "phi"
  let mu ← dictGet state_dict "mu"
  let cov ← dictGet state_dict "cov"
  let L ← dictGet state_dict "L"
  let log_det_cov ← dictGet state_dict "log_det_cov"
  let od := OutlierAEGMM.new threshold aegmm
  let od := { od with phi := phi, mu := mu, cov := cov, L := L,
                      log_det_cov := log_det_cov }
  let w : Warnings :=
    if [od.phi, od.mu, od.cov, od.L, od.log_det_cov].all is_tensor then []
    else ["Loaded AEGMM detector has not been fit."]
  .ok (od, w)

/-- `init_od_vaegmm` (saving.py:875). -/
def init_od_vaegmm (state_dict : PyVal) (vaegmm : Option VAEGMM) :
    Except PyErr (OutlierVAEGMM × Warnings) := do
  let threshold ← dictGet state_dict "threshold"
  let samples ← dictGet state_dict "samples"
  let phi ← dictGet state_dict "phi"
  let mu ← dictGet state_dict "mu"
  let cov ← dictGet state_dict "cov"
  let L ← dictGet state_dict "L"
  let log_det_cov ← dictGet state_dict "log_det_cov"
  let od := OutlierVAEGMM.new threshold vaegmm samples
  let od := { od with phi := phi, mu := mu, cov := cov, L := L,
                      log_det_cov := log_det_cov }
  let w : Warnings :=
    if [od.phi, od.mu, od.cov, od.L, od.log_det_cov].all is_tensor then []
    else ["Loaded VAEGMM detector has not been fit."]
  .ok (od, w)

/-- `init_od_s2s` (saving.py:906): `seq_len, n_features = state_dict['shape'][1:]`
needs a shape of exactly three components. -/
def init_od_s2s (state_dict : PyVal) (seq2seq : Option Seq2Seq) :
    Except PyErr OutlierSeq2Seq := do
  let shape ← dictGet state_dict "shape"
  match shape with
  | .list l =>
    match l.drop 1 with
    | [seq_len, n_features] => do
      let threshold ← dictGet state_dict "threshold"
      let latent_dim ← dictGet state_dict "latent_dim"
      let output_activation ← dictGet state_dict "output_activation"
      .ok (OutlierSeq2Seq.new n_features seq_len threshold seq2seq latent_dim
        output_activation)
    | _ => .error (.valueError "not enough values to unpack")
  | _ => .error (.typeError "object is not subscriptable")

/-- `init_od_mahalanobis` (saving.py:933). -/
def init_od_mahalanobis (state_dict : PyVal) : Except PyErr Mahalanobis := do
  let threshold ← dictGet state_dict "threshold"
  let n_components ← dictGet state_dict "n_components"
  let std_clip ← dictGet state_dict "std_clip"
  let start_clip ← dictGet state_dict "start_clip"
  let max_n ← dictGet state_dict "max_n"
  let cat_vars ← dictGet state_dict "cat_vars"
  let ohe ← dictGet state_dict "ohe"
  let d_abs ← dictGet state_dict "d_abs"
  let clip ← dictGet state_dict "clip"
  let mean ← dictGet state_dict "mean"
  let cC ← dictGet state_dict "C"
  let nn ← dictGet state_dict "n"
  let od := Mahalanobis.new threshold n_components std_clip start_clip max_n
    cat_vars ohe
  .ok { od with d_abs := d_abs, clip := clip, mean := mean, C := cC, n := nn }

/-- `init_od_iforest` (saving.py:961). -/
def init_od_iforest (state_dict : PyVal) : Except PyErr IForest := do
  let threshold ← dictGet state_dict "threshold"
  let isolationforest ← dictGet state_dict "isolationforest"
  let od := IForest.new threshold
  .ok { od with isolationforest := isolationforest }

/-- `init_od_prophet` (saving.py:979). -/
def init_od_prophet (state_dict : PyVal) : Except PyErr OutlierProphet := do
  let cap ← dictGet state_dict "cap"
  let model ← dictGet state_dict "model"
  let od := OutlierProphet.new cap
  .ok { od with model := model }

/-- `init_od_sr` (saving.py:997). -/
def init_od_sr (state_dict : PyVal) : Except PyErr SpectralResidual := do
  let threshold ← dictGet state_dict "threshold"
  let window_amp ← dictGet state_dict "window_amp"
  let window_local ← dictGet state_dict "window_local"
  let n_est_points ← dictGet state_dict "n_est_points"
  let n_grad_points ← dictGet state_dict "n_grad_points"
  .ok (SpectralResidual.new threshold window_amp window_local n_est_points
    n_grad_points)

/-- The reconstruction if-chain of `load_detector` (saving.py:558-585):
model artifacts first, then detector construction from the state. -/
def load_branch (detector_name filepath : String) (state_dict : PyVal)
    (fs : FS) : Except PyErr (Detector × Warnings) :=
  if detector_name = "OutlierAE" then
    match load_tf_ae filepath fs with
    | .error e => .error e
    | .ok (ae, w) =>
      match init_od_ae state_dict ae with
      | .error e => .error e
      | .ok od => .ok (.outlierAE od, w)
  else if detector_name = "OutlierVAE" then
    match load_tf_vae filepath state_dict fs with
    | .error e => .error e
    | .ok (vae, w) =>
      match init_od_vae state_dict vae with
      | .error e => .error e
      | .ok od => .ok (.outlierVAE od, w)
  else if detector_name = "Mahalanobis" then
    match init_od_mahalanobis state_dict with
    | .error e => .error e
    | .ok od => .ok (.mahalanobis od, [])
  else if detector_name = "IForest" then
    match init_od_iforest state_dict with
    | .error e => .error e
    | .ok od => .ok (.iforest od, [])
  else if detector_name = "OutlierAEGMM" then
    match load_tf_aegmm filepath state_dict fs with
    | .error e => .error e
    | .ok (aegmm, w) =>
      match init_od_aegmm state_dict aegmm with
      | .error e => .error e
      | .ok (od, w') => .ok (.outlierAEGMM od, w ++ w')
  else if detector_name = "OutlierVAEGMM" then
    match load_tf_vaegmm filepath state_dict fs with
    | .error e => .error e
    | .ok (vaegmm, w) =>
      match init_od_vaegmm state_dict vaegmm with
      | .error e => .error e
      | .ok (od, w') => .ok (.outlierVAEGMM od, w ++ w')
  else if detector_name = "AdversarialAE" then
    match load_tf_ae filepath fs with
    | .error e => .error e
    | .ok (ae, w1) =>
      match load_tf_model filepath Option.none fs with
      | .error e => .error e
      | .ok (model, w2) =>
        match load_tf_hl filepath model state_dict fs with
        | .error e => .error e
        | .ok model_hl =>
          match init_ad_ae state_dict ae model model_hl with
          | .error e => .error e
          | .ok ad => .ok (.adversarialAE ad, w1 ++ w2)
  else if detector_name = "OutlierProphet" then
    match init_od_prophet state_dict with
    | .error e => .error e
    | .ok od => .ok (.outlierProphet od, [])
  else if detector_name = "SpectralResidual" then
    match init_od_sr state_dict with
    | .error e => .error e
    | .ok od => .ok (.spectralResidual od, [])
  else if detector_name = "OutlierSeq2Seq" then
    match load_tf_s2s filepath state_dict fs with
    | .error e => .error e
    | .ok (seq2seq, w) =>
      match init_od_s2s state_dict seq2seq with
      | .error e => .error e
      | .ok od => .ok (.outlierSeq2Seq od, w)
  else .error (.unboundLocalError "detector")

/-- `load_detector` (saving.py:530): existence check, metadata, kind check,
state blob, per-kind reconstruction, then `detector.meta = meta_dict`. -/
def load_detector (filepath : String) (fs : FS) :
    Except PyErr (Detector × Warnings) :=
  if fs.isdir filepath then
    match fs.read (pjoin filepath "meta.pickle") with
    | .error e => .error e
    | .ok (.pickle meta_dict) =>
      match dictGet meta_dict "name" with
      | .error e => .error e
      | .ok (.str detector_name) =>
        if detector_name ∈ DEFAULT_DETECTORS then
          match fs.read (pjoin filepath (detector_name ++ ".pickle")) with
          | .error e => .error e
          | .ok (.pickle state_dict) =>
            match load_branch detector_name filepath state_dict fs with
            | .error e => .error e
            | .ok (detector, w) => .ok (detector.setMeta meta_dict, w)
          | .ok _ => .error (.valueError "unpickling error")
        else .error (.valueError (detector_name ++ " is not supported by `load_detector`."))
      | .ok v =>
        .error (.valueError (pyValFormat v ++ " is not supported by `load_detector`."))
    | .ok _ => .error (.valueError "unpickling error")
  else .error (.valueError (filepath ++ " does not exist."))

/-- The remote registry: URL to downloadable blob (network failures are
`Option.none`). -/
abbrev Remote := String → Option Blob

/-- `cp.load(urlopen(p))`. -/
def urlPickle (remote : Remote) (p : String) : Except PyErr PyVal :=
  match remote p with
  | some (.pickle v) => .ok v
  | _ => .error (.urlError p)

/-- `tf.keras.utils.get_file(localPath, urlPath)`: download and store, then
hand back the local path. -/
def get_file (remote : Remote) (localPath urlPath : String) (fs : FS) :
    Except PyErr (String × FS) :=
  match remote urlPath with
  | some b => .ok (localPath, fs.write localPath b)
  | Option.none => .error (.urlError urlPath)

/-- The URL of the artifact set (saving.py:1050-1054); `os.path.join` with a
`None` model segment is a `TypeError`. -/
def fetch_url (detector_type dataset : String) (model : Option String)
    (detector_name : String) : Except PyErr String :=
  let url := "https://storage.googleapis.com/seldon-models/alibi-detect"
  if detector_type = "adversarial" then
    match model with
    | some m => .ok (pjoin (pjoin (pjoin (pjoin url "ad") dataset) m) detector_name)
    | Option.none => .error (.typeError "expected str, not NoneType")
  else if detector_type = "outlier" then
    .ok (pjoin (pjoin (pjoin url "od") dataset) detector_name)
  else .ok url

/-- The hidden-layer fetch loop of `fetch_detector` (saving.py:1098-1116):
fetch the three checkpoint files of index `i`, then restore the weights from
the checkpoint prefix (`ckpt[:-6]` strips `".index"`). -/
def fetch_hl_loop (remote : Remote) (model_path url_models : String)
    (clf : Option TFObj) :
    List (String × PyVal) → Nat → FS → Except PyErr (List DenseHidden × FS)
  | [], _, fs => .ok ([], fs)
  | (hidden_layer, output_dim) :: rest, i, fs =>
    let ckpt_tmp := "model_hl_" ++ pyStr i ++ ".ckpt.index"
    let data_0_tmp := "model_hl_" ++ pyStr i ++ ".ckpt.data-00000-of-00002"
    let data_1_tmp := "model_hl_" ++ pyStr i ++ ".ckpt.data-00001-of-00002"
    match get_file remote (pjoin model_path ckpt_tmp) (pjoin url_models ckpt_tmp) fs with
    | .error e => .error e
    | .ok (ckpt, fs) =>
      match get_file remote (pjoin model_path data_0_tmp) (pjoin url_models data_0_tmp) fs with
      | .error e => .error e
      | .ok (_, fs) =>
        match get_file remote (pjoin model_path data_1_tmp) (pjoin url_models data_1_tmp) fs with
        | .error e => .error e
        | .ok (_, fs) =>
          let m := DenseHidden.new clf hidden_layer output_dim
          match ckptLoad fs (ckpt.dropRight 6) with
          | .error e => .error e
          | .ok w =>
            match fetch_hl_loop remote model_path url_models clf rest (i + 1) fs with
            | .error e => .error e
            | .ok (tail, fs) => .ok (m.load_weights w :: tail, fs)

/-- `fetch_detector` continued past the metadata-name extraction: state blob
download and per-kind reconstruction (saving.py:1060-1123). -/
def fetch_body (remote : Remote) (filepath url mname : String) (fs : FS)
    (w0 : Warnings) : Except PyErr (Detector × FS × Warnings) :=
  match urlPickle remote (pjoin url (mname ++ ".pickle")) with
  | .error e => .error e
  | .ok state_dict =>
    let fs := fs.write (pjoin filepath (mname ++ ".pickle")) (.pickle state_dict)
    let url_models := pjoin url "model"
    let model_path := pjoin filepath "model"
    let fs := if fs.isdir model_path then fs else fs.mkdir model_path
    if mname = "AdversarialAE" then
      match get_file remote (pjoin model_path "encoder_net.h5")
        (pjoin url_models "encoder_net.h5") fs with
      | .error e => .error e
      | .ok (enc_path, fs) =>
        match get_file remote (pjoin model_path "decoder_net.h5")
          (pjoin url_models "decoder_net.h5") fs with
        | .error e => .error e
        | .ok (dec_path, fs) =>
          match keras_load_model fs enc_path with
          | .error e => .error e
          | .ok encoder_net =>
            match keras_load_model fs dec_path with
            | .error e => .error e
            | .ok decoder_net =>
              match get_file remote (pjoin model_path "model.h5")
                (pjoin url_models "model.h5") fs with
              | .error e => .error e
              | .ok (clf_path, fs) =>
                match keras_load_model fs clf_path with
                | .error e => .error e
                | .ok clf =>
                  let ae := AE.new encoder_net decoder_net
                  match dictGet state_dict "hidden_layer_kld" with
                  | .error e => .error e
                  | .ok hidden_layer_kld =>
                    match hidden_layer_kld with
                    | .dict entries =>
                      match fetch_hl_loop remote model_path url_models
                        (some clf) entries 0 fs with
                      | .error e => .error e
                      | .ok (model_hl, fs) =>
                        match init_ad_ae state_dict (some ae) (some clf)
                          (some model_hl) with
                        | .error e => .error e
                        | .ok ad => .ok (.adversarialAE ad, fs, w0)
                    | _ =>
                      match init_ad_ae state_dict (some ae) (some clf)
                        Option.none with
                      | .error e => .error e
                      | .ok ad => .ok (.adversarialAE ad, fs, w0)
    else .error .notImplementedError

/-- `fetch_detector` (saving.py:1044): download metadata and state into the
local layout, then reconstruct; only the adversarial kind is implemented. -/
def fetch_detector (remote : Remote) (filepath detector_type dataset
    detector_name : String) (model : Option String) (fs : FS) :
    Except PyErr (Detector × FS × Warnings) :=
  let filepath := pjoin filepath detector_name
  let (fs, w0) := ensureDir filepath fs
  match fetch_url detector_type dataset model detector_name with
  | .error e => .error e
  | .ok url =>
    match urlPickle remote (pjoin url "meta.pickle") with
    | .error e => .error e
    | .ok meta =>
      let fs := fs.write (pjoin filepath "meta.pickle") (.pickle meta)
      match dictGet meta "name" with
      | .error e => .error e
      | .ok (.str mname) =>
        fetch_body remote filepath url mname fs w0
      | .ok _ => .error (.typeError "expected str, not NoneType")

def c2FS : FS :=
  ⟨["d"], [(pjoin "d" "meta.pickle", .pickle (.dict [("name", .str "KNN")]))]⟩

def c7FS : FS :=
  ⟨["d"],
   [(pjoin "d" "meta.pickle",
      .pickle (.dict [("name", .str "IForest"), ("data_type", .str "tabular")])),
    (pjoin "d" "IForest.pickle",
      .pickle (.dict [("threshold", .pyfloat (7/2)), ("isolationforest", .pyobj "forest")]))]⟩

/-- The kinds whose load path reads the `model/` directory. -/
def MODEL_KINDS : List String :=
  ["OutlierAE", "OutlierVAE", "OutlierAEGMM", "OutlierVAEGMM", "AdversarialAE",
   "OutlierSeq2Seq"]

/-- A detector directory holding only the metadata and state blobs (no
`model/` subdirectory). -/
def dirNoModel (nm : String) (mv st : PyVal) : FS :=
  ⟨["dir"],
   [(pjoin "dir" "meta.pickle", .pickle mv),
    (pjoin "dir" (nm ++ ".pickle"), .pickle st)]⟩

/-- A `model/` directory containing only a dot-prefixed file. -/
def c10FS : FS :=
  ⟨["d", pjoin "d" "model"],
   [(pjoin (pjoin "d" "model") ".DS_Store", .pickle .none)]⟩

def c6AEGMM : AEGMM :=
  ⟨⟨.sequential, [1]⟩, ⟨.sequential, [2]⟩, ⟨.sequential, [3]⟩, .pyint 2,
    .pyint 4, .kmodel, [5]⟩

def c6State : PyVal :=
  .dict [("threshold", .pyfloat 1), ("samples", .pyint 5), ("phi", .none),
    ("mu", .none), ("cov", .none), ("L", .none), ("log_det_cov", .none)]

def advMeta : PyVal := .dict [("name", .str "AdversarialAE")]

def advStateHL : PyVal :=
  .dict [("threshold", .pyfloat 1), ("w_model_hl", .list [.pyfloat 1]),
    ("temperature", .pyfloat 1),
    ("hidden_layer_kld", .dict [("layer_a", .pyint 10)])]

def c4fs : FS :=
  ⟨["dir", pjoin "dir" "model"],
   [(pjoin "dir" "meta.pickle", .pickle advMeta),
    (pjoin "dir" "AdversarialAE.pickle", .pickle advStateHL)]⟩

/-- A detector directory with metadata, state, and a present-but-empty
`model/` subdirectory. -/
def emptyModelDirFS (nm : String) (mv st : PyVal) : FS :=
  ⟨["dir", pjoin "dir" "model"],
   [(pjoin "dir" "meta.pickle", .pickle mv),
    (pjoin "dir" (nm ++ ".pickle"), .pickle st)]⟩

/-- The explicit filesystem produced by the hidden-layer write loop. -/
def hlFS (model_dir : String) : List DenseHidden → Nat → FS → FS
  | [], _, fs => fs
  | m :: rest, i, fs =>
    hlFS model_dir rest (i + 1)
      (ckptSave fs (pjoin model_dir ("model_hl_" ++ pyStr i ++ ".ckpt")) m.weights)

/-- The detector of `c5_counterexample`: a proper autoencoder but a foreign
object inside `model_hl`. -/
def ad5 : Detector :=
  .adversarialAE
    ⟨ctorMeta "AdversarialAE", .pyfloat 1,
      some ⟨⟨⟨.sequential, [1]⟩⟩, ⟨⟨.sequential, [2]⟩⟩, .kmodel, [3]⟩,
      Option.none,
      some [⟨Option.none, "layer_a", .pyint 10, .notKeras, []⟩],
      .list [.pyfloat 1], .pyfloat 1⟩

def okWarnings (r : Except PyErr (FS × Warnings)) : Warnings :=
  match r with
  | .ok (_, w) => w
  | .error _ => []

def okFS (r : Except PyErr (FS × Warnings)) (fs : FS) : FS :=
  match r with
  | .ok (fs', _) => fs'
  | .error _ => fs

def c8Remote : Remote := fun p =>
  if p = pjoin
      (pjoin (pjoin "https://storage.googleapis.com/seldon-models/alibi-detect" "od")
        "kddcup") "if1" ++ "/meta.pickle" then
    some (.pickle (.dict [("name", .str "IForest")]))
  else if p = pjoin
      (pjoin (pjoin "https://storage.googleapis.com/seldon-models/alibi-detect" "od")
        "kddcup") "if1" ++ "/IForest.pickle" then
    some (.pickle (.dict [("threshold", .pyfloat 1), ("isolationforest", .pyobj "f")]))
  else Option.none

/-- The state record of a detector, as its own kind's `state_*` function
extracts it (warnings dropped). -/
def stateDictOf (d : Detector) : Except PyErr PyVal :=
  (state_branch d.nameOf d).map Prod.fst

/-- Save into a fresh directory, load it back, and compare the state records
field for field. -/
def roundTrips (d : Detector) : Prop :=
  match save_detector d "dir" FS.empty with
  | .error _ => False
  | .ok (fs', _) =>
    match load_detector "dir" fs' with
    | .error _ => False
    | .ok (d', _) => stateDictOf d' = stateDictOf d

/-- Well-formedness of a detector instance, as construction guarantees it:
the metadata names the kind, the sub-models required by the kind's save path
are present with their expected keras shapes, and for the adversarial kind
the classifier is a keras model and `model_hl` is either absent or a
non-empty list of keras models. -/
def WF : Detector → Prop
  | .iforest od => dictGet od.meta "name" = .ok (.str "IForest")
  | .mahalanobis od => dictGet od.meta "name" = .ok (.str "Mahalanobis")
  | .outlierProphet od => dictGet od.meta "name" = .ok (.str "OutlierProphet")
  | .spectralResidual od => dictGet od.meta "name" = .ok (.str "SpectralResidual")
  | .outlierAE od =>
      dictGet od.meta "name" = .ok (.str "OutlierAE") ∧
      ∃ ae, od.ae = some ae ∧
        isSequential ae.encoder.encoder_net = true ∧
        isSequential ae.decoder.decoder_net = true ∧
        isKerasModel ae.kind = true
  | .outlierVAE od =>
      dictGet od.meta "name" = .ok (.str "OutlierVAE") ∧
      ∃ v, od.vae = some v ∧
        isSequential v.encoder.encoder_net = true ∧
        isSequential v.decoder.decoder_net = true ∧
        isKerasModel v.kind = true
  | .outlierAEGMM od =>
      dictGet od.meta "name" = .ok (.str "OutlierAEGMM") ∧
      ∃ m, od.aegmm = some m ∧
        isSequential m.encoder = true ∧ isSequential m.decoder = true ∧
        isSequential m.gmm_density = true ∧ isKerasModel m.kind = true
  | .outlierVAEGMM od =>
      dictGet od.meta "name" = .ok (.str "OutlierVAEGMM") ∧
      ∃ m, od.vaegmm = some m ∧
        isSequential m.encoder.encoder_net = true ∧
        isSequential m.decoder = true ∧
        isSequential m.gmm_density = true ∧ isKerasModel m.kind = true
  | .outlierSeq2Seq od =>
      dictGet od.meta "name" = .ok (.str "OutlierSeq2Seq") ∧
      (∃ s, od.seq2seq = some s ∧
        isSequential s.threshold_net = true ∧ isKerasModel s.kind = true) ∧
      ∃ a b, od.shape = [.pyint (-1), a, b]
  | .adversarialAE ad =>
      dictGet ad.meta "name" = .ok (.str "AdversarialAE") ∧
      (∃ ae, ad.ae = some ae ∧
        isSequential ae.encoder.encoder_net = true ∧
        isSequential ae.decoder.decoder_net = true ∧
        isKerasModel ae.kind = true) ∧
      (∃ m, ad.model = some m ∧ isKerasModel m.kind = true) ∧
      (ad.model_hl = Option.none ∨
        ∃ l, ad.model_hl = some l ∧ l ≠ [] ∧
          ∀ m ∈ l, isKerasModel m.kind = true)

/-- The checkpoint prefix of the `i`-th hidden-layer model under `dir/`. -/
def hlCkpt (i : Nat) : String :=
  pjoin "dir/model" ("model_hl_" ++ pyStr i ++ ".ckpt")

/-- Its on-disk index file. -/
def hlIdxKey (i : Nat) : String := hlCkpt i ++ ".index"

/-- The filesystem just before the hidden-layer writes of an adversarial save. -/
def advPre (mv thr wmh temp : PyVal) (enc dec : TFObj) (aw : List Int)
    (clf : TFObj) (l : List DenseHidden) : FS :=
  ⟨["dir/model", "dir"],
   [("dir/model/model.h5", .h5 clf),
    ("dir/model/ae.ckpt.index", .ckpt aw),
    ("dir/model/decoder_net.h5", .h5 dec),
    ("dir/model/encoder_net.h5", .h5 enc),
    ("dir/AdversarialAE.pickle", .pickle (.dict
      [("threshold", thr), ("w_model_hl", wmh), ("temperature", temp),
       ("hidden_layer_kld",
         .dict (l.map (fun m => (m.hidden_layer, m.output_dim))))])),
    ("dir/meta.pickle", .pickle mv)]⟩

def clfC : TFObj := ⟨.kmodel, [9]⟩

def aeC : AE := ⟨⟨⟨.sequential, [1]⟩⟩, ⟨⟨.sequential, [2]⟩⟩, .kmodel, [3]⟩

/-- A fit adversarial detector with two hidden-layer models. -/
def c1d : Detector :=
  .adversarialAE
    ⟨ctorMeta "AdversarialAE", .pyfloat (1/2), some aeC, some clfC,
      some [⟨some clfC, "layer_a", .pyint 10, .kmodel, [11, 12]⟩,
            ⟨some clfC, "layer_b", .pyint 5, .kmodel, [13]⟩],
      .list [.pyfloat 1], .pyfloat 1⟩

/-- The concrete detector of C3's example, with hidden-layer descriptors
`{layer_a: 10, layer_b: 5}` (weights `[11, 12]` and `[13]` distinguish the
two auxiliary models). -/
def ad3 : Detector :=
  .adversarialAE
    ⟨ctorMeta "AdversarialAE", .pyfloat 1, some aeC, some clfC,
      some [⟨some clfC, "layer_a", .pyint 10, .kmodel, [11, 12]⟩,
            ⟨some clfC, "layer_b", .pyint 5, .kmodel, [13]⟩],
      .list [.pyfloat 1], .pyfloat 1⟩

def c3l : List DenseHidden := [⟨Option.none, "a", .pyint 3, .kmodel, [7]⟩]

def c3st : PyVal := .dict [("hidden_layer_kld", .dict [("a", .pyint 3)])]

def c3fs : FS :=
  ⟨["dir/model", "dir"], [("dir/model/model_hl_0.ckpt.index", .ckpt [7])]⟩

/-! ## Theorems -/

theorem decChars_eq (fuel n : Nat) (h : n < fuel) :
    decChars fuel n =
      if n = 0 then ['0'] else ((Nat.digits 10 n).map Nat.digitChar).reverse := by
  induction fuel generalizing n with
  | zero => omega
  | succ f ih =>
    rw [decChars]
    by_cases h10 : n < 10
    · simp only [if_pos h10]
      by_cases h0 : n = 0
      · simp [h0, Nat.digitChar]
      · have hd : Nat.digits 10 n = [n] := by
          rw [Nat.digits_def' (by norm_num : 1 < 10) (Nat.pos_of_ne_zero h0)]
          rw [Nat.mod_eq_of_lt h10, Nat.div_eq_of_lt h10]
          simp
        simp [h0, hd]
    · have hne : n ≠ 0 := by omega
      have hql : n / 10 < f := by
        have := Nat.div_lt_self (Nat.pos_of_ne_zero hne) (by norm_num : 1 < 10)
        omega
      have hqne : n / 10 ≠ 0 := by
        have := Nat.div_pos (by omega : 10 ≤ n) (by norm_num : 0 < 10)
        omega
      rw [if_neg h10, ih _ hql, if_neg hqne, if_neg hne,
        Nat.digits_def' (by norm_num : 1 < 10) (Nat.pos_of_ne_zero hne)]
      simp

theorem digitChar_inj {a b : Nat} (ha : a < 10) (hb : b < 10)
    (h : Nat.digitChar a = Nat.digitChar b) : a = b := by
  have : ∀ x < 10, ∀ y < 10, Nat.digitChar x = Nat.digitChar y → x = y := by decide
  exact this a ha b hb h

theorem map_digitChar_inj : ∀ (l₁ l₂ : List Nat), (∀ d ∈ l₁, d < 10) →
    (∀ d ∈ l₂, d < 10) → l₁.map Nat.digitChar = l₂.map Nat.digitChar → l₁ = l₂ := by
  intro l₁
  induction l₁ with
  | nil => intro l₂ _ _ h; cases l₂ <;> simp_all
  | cons a t ih =>
    intro l₂ h1 h2 h
    cases l₂ with
    | nil => simp at h
    | cons b t₂ =>
      simp only [List.map_cons, List.cons.injEq] at h
      have hab : a = b :=
        digitChar_inj (h1 a (by simp)) (h2 b (by simp)) h.1
      have := ih t₂ (fun d hd => h1 d (by simp [hd])) (fun d hd => h2 d (by simp [hd])) h.2
      simp [hab, this]

theorem digits10_inj {m n : Nat} (h : Nat.digits 10 m = Nat.digits 10 n) : m = n := by
  have := congrArg (Nat.ofDigits 10) h
  rwa [Nat.ofDigits_digits, Nat.ofDigits_digits] at this

theorem pyStr_inj {m n : Nat} (h : pyStr m = pyStr n) : m = n := by
  have hd : decChars (m + 1) m = decChars (n + 1) n := congrArg String.data h
  rw [decChars_eq _ _ (Nat.lt_succ_self m), decChars_eq _ _ (Nat.lt_succ_self n)] at hd
  by_cases hm : m = 0 <;> by_cases hn : n = 0
  · omega
  · exfalso
    rw [if_pos hm, if_neg hn] at hd
    have hrev : (Nat.digits 10 n).map Nat.digitChar = ['0'] := by
      have := congrArg List.reverse hd
      simpa using this.symm
    have : Nat.digits 10 n = [0] := by
      refine map_digitChar_inj _ _ ?_ ?_ ?_
      · exact fun d hd' => Nat.digits_lt_base (by norm_num) hd'
      · intro d hd'; simp at hd'; omega
      · simpa using hrev
    have := congrArg (Nat.ofDigits 10) this
    rw [Nat.ofDigits_digits] at this
    simp [Nat.ofDigits] at this
    omega
  · exfalso
    rw [if_neg hm, if_pos hn] at hd
    have hrev : (Nat.digits 10 m).map Nat.digitChar = ['0'] := by
      have := congrArg List.reverse hd
      simpa using this
    have : Nat.digits 10 m = [0] := by
      refine map_digitChar_inj _ _ ?_ ?_ ?_
      · exact fun d hd' => Nat.digits_lt_base (by norm_num) hd'
      · intro d hd'; simp at hd'; omega
      · simpa using hrev
    have := congrArg (Nat.ofDigits 10) this
    rw [Nat.ofDigits_digits] at this
    simp [Nat.ofDigits] at this
    omega
  · rw [if_neg hm, if_neg hn] at hd
    have := congrArg List.reverse hd
    simp only [List.reverse_reverse] at this
    exact digits10_inj (map_digitChar_inj _ _
      (fun d hd' => Nat.digits_lt_base (by norm_num) hd')
      (fun d hd' => Nat.digits_lt_base (by norm_num) hd') this)

theorem alookup_filter_ne {α : Type} (q p : String) (hqp : q ≠ p) :
    ∀ (l : List (String × α)),
      alookup (l.filter (fun e => !(decide (e.1 = p)))) q = alookup l q := by
  intro l
  induction l with
  | nil => rfl
  | cons e rest ih =>
    obtain ⟨k, v⟩ := e
    by_cases hk : k = p
    · subst hk; simp [List.filter_cons, alookup, hqp, ih]
    · by_cases hq : q = k
      · simp [List.filter_cons, alookup, hk, hq]
      · simp [List.filter_cons, alookup, hk, hq, ih]

theorem read_write_self (fs : FS) (p : String) (b : Blob) :
    (fs.write p b).read p = .ok b := by
  simp [FS.read, FS.write, alookup]

theorem read_write_ne (fs : FS) (p q : String) (b : Blob) (h : q ≠ p) :
    (fs.write p b).read q = fs.read q := by
  simp only [FS.read, FS.write, alookup, if_neg h]
  rw [alookup_filter_ne q p h]

theorem mem_write_of_ne (fs : FS) (p q : String) (b c : Blob)
    (hmem : (q, c) ∈ fs.files) (h : q ≠ p) : (q, c) ∈ (fs.write p b).files := by
  simp only [FS.write]
  exact List.mem_cons_of_mem _ (List.mem_filter.mpr ⟨hmem, by simp [h]⟩)

theorem dirs_write (fs : FS) (p : String) (b : Blob) :
    (fs.write p b).dirs = fs.dirs := rfl

theorem ckptLoad_save_self (fs : FS) (p : String) (w : List Int) :
    ckptLoad (ckptSave fs p w) p = .ok w := by
  simp [ckptLoad, ckptSave, read_write_self]

theorem append_index_inj {p q : String} (h : p ++ ".index" = q ++ ".index") :
    p = q := by
  have hd : p.data ++ ".index".data = q.data ++ ".index".data := by
    rw [← String.data_append, ← String.data_append, h]
  have h2 := List.append_cancel_right hd
  cases p; cases q
  exact congrArg String.mk h2

theorem ckptLoad_save_ne (fs : FS) (p q : String) (w : List Int) (h : q ≠ p) :
    ckptLoad (ckptSave fs p w) q = ckptLoad fs q := by
  simp only [ckptLoad, ckptSave]
  rw [read_write_ne _ _ _ _ (fun hx => h (append_index_inj hx))]

/-- `(d.setMeta m).meta = m`. -/
theorem metaOf_setMeta (d : Detector) (m : PyVal) : (d.setMeta m).metaOf = m := by
  cases d <;> rfl

theorem filter_nondot_of_all_dot {es : List String}
    (h : ∀ f ∈ es, startsWithDot f = true) :
    es.filter (fun f => !(startsWithDot f)) = [] := by
  rw [List.filter_eq_nil_iff]
  intro a ha
  simp [h a ha]

/-- C2: `load_detector` fails with the "does not exist" `ValueError`
(NotFoundError) on a missing directory; both `save_detector` and
`load_detector` fail with the "is not supported" `ValueError`
(UnsupportedKindError) when the metadata name is outside `DEFAULT_DETECTORS`;
nothing else happens in those cases. -/
theorem c2_notfound_and_unsupported :
    (∀ (filepath : String) (fs : FS), fs.isdir filepath = false →
      load_detector filepath fs =
        .error (.valueError (filepath ++ " does not exist."))) ∧
    (∀ (d : Detector) (filepath : String) (fs : FS) (nm : String),
      dictGet d.metaOf "name" = .ok (.str nm) → nm ∉ DEFAULT_DETECTORS →
      save_detector d filepath fs =
        .error (.valueError (nm ++ " is not supported by `save_detector`."))) ∧
    (∀ (filepath : String) (fs : FS) (mv : PyVal) (nm : String),
      fs.isdir filepath = true →
      fs.read (pjoin filepath "meta.pickle") = .ok (.pickle mv) →
      dictGet mv "name" = .ok (.str nm) → nm ∉ DEFAULT_DETECTORS →
      load_detector filepath fs =
        .error (.valueError (nm ++ " is not supported by `load_detector`."))) := by
  refine ⟨?_, ?_, ?_⟩
  · intro filepath fs h
    simp [load_detector, h]
  · intro d filepath fs nm hname hnm
    simp [save_detector, hname, hnm]
  · intro filepath fs mv nm hdir hmeta hname hnm
    simp [load_detector, hdir, hmeta, hname, hnm]

theorem c2_witness :
    load_detector "nosuch" FS.empty =
      .error (.valueError ("nosuch" ++ " does not exist.")) ∧
    save_detector (.iforest ⟨.dict [("name", .str "KNN")], .none, .none⟩) "d"
        FS.empty =
      .error (.valueError ("KNN" ++ " is not supported by `save_detector`.")) ∧
    load_detector "d" c2FS =
      .error (.valueError ("KNN" ++ " is not supported by `load_detector`.")) :=
  ⟨c2_notfound_and_unsupported.1 "nosuch" FS.empty rfl,
   c2_notfound_and_unsupported.2.1 _ "d" FS.empty "KNN" rfl (by decide),
   c2_notfound_and_unsupported.2.2 "d" c2FS _ "KNN" rfl rfl rfl (by decide)⟩

/-- C7: whenever `load_detector` succeeds, the returned detector's `meta` is
exactly the metadata mapping read from `meta.pickle`, whatever metadata the
constructor had produced. -/
theorem c7_meta_reattached_verbatim (filepath : String) (fs : FS)
    (d' : Detector) (w : Warnings) (mv : PyVal)
    (hmeta : fs.read (pjoin filepath "meta.pickle") = .ok (.pickle mv))
    (hload : load_detector filepath fs = .ok (d', w)) :
    d'.metaOf = mv := by
  unfold load_detector at hload
  by_cases hdir : fs.isdir filepath
  · rw [if_pos hdir, hmeta] at hload
    dsimp only at hload
    cases hname : dictGet mv "name" with
    | error e => rw [hname] at hload; exact Except.noConfusion hload
    | ok v =>
      rw [hname] at hload
      cases v with
      | str nm =>
        dsimp only at hload
        by_cases hmem : nm ∈ DEFAULT_DETECTORS
        · rw [if_pos hmem] at hload
          cases hstate : fs.read (pjoin filepath (nm ++ ".pickle")) with
          | error e => rw [hstate] at hload; exact Except.noConfusion hload
          | ok b =>
            rw [hstate] at hload
            cases b with
            | pickle st =>
              dsimp only at hload
              cases hbr : load_branch nm filepath st fs with
              | error e => rw [hbr] at hload; exact Except.noConfusion hload
              | ok p =>
                obtain ⟨d0, w0⟩ := p
                rw [hbr] at hload
                dsimp only at hload
                have : d0.setMeta mv = d' := by
                  injection hload with h1
                  exact congrArg Prod.fst h1
                rw [← this, metaOf_setMeta]
            | h5 m => exact Except.noConfusion hload
            | ckpt wt => exact Except.noConfusion hload
        · rw [if_neg hmem] at hload; exact Except.noConfusion hload
      | none => exact Except.noConfusion hload
      | pybool b => exact Except.noConfusion hload
      | pyint n => exact Except.noConfusion hload
      | pyfloat q => exact Except.noConfusion hload
      | tensor t => exact Except.noConfusion hload
      | nparr t => exact Except.noConfusion hload
      | pyobj t => exact Except.noConfusion hload
      | dict es => exact Except.noConfusion hload
      | list xs => exact Except.noConfusion hload
  · rw [if_neg hdir] at hload; exact Except.noConfusion hload

theorem c7_witness :
    (Detector.iforest ⟨.dict [("name", .str "IForest"), ("data_type", .str "tabular")],
        .pyfloat (7/2), .pyobj "forest"⟩).metaOf =
      PyVal.dict [("name", .str "IForest"), ("data_type", .str "tabular")] :=
  c7_meta_reattached_verbatim "d" c7FS _ [] _ rfl rfl

/-- C9: for every kind with sub-model artifacts, a directory with valid
metadata and state blobs but no `model/` subdirectory makes `load_detector`
raise (the `os.listdir` enumeration fails with `FileNotFoundError`) instead
of returning an absent-model detector. -/
theorem c9_missing_model_dir_raises (nm : String) (hnm : nm ∈ MODEL_KINDS)
    (mv st : PyVal) (hname : dictGet mv "name" = .ok (.str nm)) :
    load_detector "dir" (dirNoModel nm mv st) =
      .error (.fileNotFoundError (pjoin "dir" "model")) := by
  fin_cases hnm <;>
    simp [load_detector, dirNoModel, FS.isdir, FS.read, alookup, hname,
      load_branch, load_tf_ae, load_tf_vae, load_tf_aegmm, load_tf_vaegmm,
      load_tf_s2s, FS.listdir, pjoin, DEFAULT_DETECTORS]

theorem c9_witness :
    load_detector "dir"
      (dirNoModel "OutlierAE" (.dict [("name", .str "OutlierAE")])
        (.dict [("threshold", .pyfloat 1)])) =
      .error (.fileNotFoundError (pjoin "dir" "model")) :=
  c9_missing_model_dir_raises "OutlierAE" (by decide) _ _ rfl

/-- C10: every model-artifact load that checks the `model/` directory ignores
dot-prefixed file names: when every entry starts with a dot the directory is
treated exactly like an empty one — the absent-model sentinel is returned
together with the warning. -/
theorem c10_dotfiles_ignored (filepath : String) (fs : FS)
    (entries : List String)
    (hls : fs.listdir (pjoin filepath "model") = .ok entries)
    (hdot : ∀ f ∈ entries, startsWithDot f = true) :
    load_tf_ae filepath fs =
      .ok (Option.none,
        ["No encoder, decoder or ae found in " ++ pjoin filepath "model" ++ "."]) ∧
    (∀ st, load_tf_vae filepath st fs =
      .ok (Option.none,
        ["No encoder, decoder or vae found in " ++ pjoin filepath "model" ++ "."])) ∧
    (∀ st, load_tf_aegmm filepath st fs =
      .ok (Option.none,
        ["No encoder, decoder, gmm density net or aegmm found in " ++
          pjoin filepath "model" ++ "."])) ∧
    (∀ st, load_tf_vaegmm filepath st fs =
      .ok (Option.none,
        ["No encoder, decoder, gmm density net or vaegmm found in " ++
          pjoin filepath "model" ++ "."])) ∧
    (∀ st, load_tf_s2s filepath st fs =
      .ok (Option.none,
        ["No seq2seq or threshold estimation net found in " ++
          pjoin filepath "model" ++ "."])) ∧
    load_tf_model filepath Option.none fs =
      .ok (Option.none, ["No model found in " ++ pjoin filepath "model" ++ "."]) := by
  have hfil : entries.filter (fun f => !(startsWithDot f)) = [] :=
    filter_nondot_of_all_dot hdot
  refine ⟨?_, fun st => ?_, fun st => ?_, fun st => ?_, fun st => ?_, ?_⟩
  · simp [load_tf_ae, hls, hfil]
  · simp [load_tf_vae, hls, hfil]
  · simp [load_tf_aegmm, hls, hfil]
  · simp [load_tf_vaegmm, hls, hfil]
  · simp [load_tf_s2s, hls, hfil]
  · simp [load_tf_model, hls, hfil, List.contains]

theorem c10_witness :
    load_tf_ae "d" c10FS =
      .ok (Option.none,
        ["No encoder, decoder or ae found in " ++ pjoin "d" "model" ++ "."]) ∧
    load_tf_model "d" Option.none c10FS =
      .ok (Option.none, ["No model found in " ++ pjoin "d" "model" ++ "."]) := by
  have h := c10_dotfiles_ignored "d" c10FS [".DS_Store"] rfl (by decide)
  exact ⟨h.1, h.2.2.2.2.2⟩

/-- C6: for the AEGMM and VAEGMM kinds, both state extraction (save) and
detector reconstruction (load) check whether the five GMM mixture parameters
are all tensors; when they are not, the operation emits the "has not been
fit" warning and still proceeds — extraction returns the full state record
and reconstruction returns a detector with the parameters assigned from the
state record. -/
theorem c6_gmm_unfit_warn_and_proceed :
    (∀ (od : OutlierAEGMM) (g : AEGMM), od.aegmm = some g →
      ([od.phi, od.mu, od.cov, od.L, od.log_det_cov].all is_tensor) = false →
      state_aegmm od = .ok (.dict [("threshold", od.threshold),
        ("n_gmm", g.n_gmm), ("recon_features", g.recon_features),
        ("phi", od.phi), ("mu", od.mu), ("cov", od.cov), ("L", od.L),
        ("log_det_cov", od.log_det_cov)],
        ["Saving AEGMM detector that has not been fit."])) ∧
    (∀ (od : OutlierVAEGMM) (g : VAEGMM), od.vaegmm = some g →
      ([od.phi, od.mu, od.cov, od.L, od.log_det_cov].all is_tensor) = false →
      state_vaegmm od = .ok (.dict [("threshold", od.threshold),
        ("samples", od.samples), ("n_gmm", g.n_gmm),
        ("latent_dim", g.latent_dim), ("beta", g.beta),
        ("recon_features", g.recon_features), ("phi", od.phi), ("mu", od.mu),
        ("cov", od.cov), ("L", od.L), ("log_det_cov", od.log_det_cov)],
        ["Saving VAEGMM detector that has not been fit."])) ∧
    (∀ (st : PyVal) (am : Option AEGMM) (thr phi mu cov cL ldc : PyVal),
      dictGet st "threshold" = .ok thr → dictGet st "phi" = .ok phi →
      dictGet st "mu" = .ok mu → dictGet st "cov" = .ok cov →
      dictGet st "L" = .ok cL → dictGet st "log_det_cov" = .ok ldc →
      ([phi, mu, cov, cL, ldc].all is_tensor) = false →
      init_od_aegmm st am =
        .ok (⟨ctorMeta "OutlierAEGMM", thr, phi, mu, cov, cL, ldc, am⟩,
          ["Loaded AEGMM detector has not been fit."])) ∧
    (∀ (st : PyVal) (am : Option VAEGMM) (thr samples phi mu cov cL ldc : PyVal),
      dictGet st "threshold" = .ok thr → dictGet st "samples" = .ok samples →
      dictGet st "phi" = .ok phi → dictGet st "mu" = .ok mu →
      dictGet st "cov" = .ok cov → dictGet st "L" = .ok cL →
      dictGet st "log_det_cov" = .ok ldc →
      ([phi, mu, cov, cL, ldc].all is_tensor) = false →
      init_od_vaegmm st am =
        .ok (⟨ctorMeta "OutlierVAEGMM", thr, samples, phi, mu, cov, cL, ldc, am⟩,
          ["Loaded VAEGMM detector has not been fit."])) := by
  refine ⟨?_, ?_, ?_, ?_⟩
  · intro od g hg hfit
    simp [state_aegmm, hg, hfit]
  · intro od g hg hfit
    simp [state_vaegmm, hg, hfit]
  · intro st am thr phi mu cov cL ldc h1 h2 h3 h4 h5 h6 hfit
    simp only [init_od_aegmm, h1, h2, h3, h4, h5, h6, bind, Except.bind, hfit,
      Bool.false_eq_true, if_false, OutlierAEGMM.new]
  · intro st am thr samples phi mu cov cL ldc h1 h2 h3 h4 h5 h6 h7 hfit
    simp only [init_od_vaegmm, h1, h2, h3, h4, h5, h6, h7, bind, Except.bind,
      hfit, Bool.false_eq_true, if_false, OutlierVAEGMM.new]

theorem c6_witness :
    state_aegmm ⟨ctorMeta "OutlierAEGMM", .pyfloat 1, .none, .none, .none,
        .none, .none, some c6AEGMM⟩ =
      .ok (.dict [("threshold", .pyfloat 1), ("n_gmm", .pyint 2),
        ("recon_features", .pyint 4), ("phi", .none), ("mu", .none),
        ("cov", .none), ("L", .none), ("log_det_cov", .none)],
        ["Saving AEGMM detector that has not been fit."]) ∧
    init_od_aegmm c6State Option.none =
      .ok (⟨ctorMeta "OutlierAEGMM", .pyfloat 1, .none, .none, .none, .none,
        .none, Option.none⟩, ["Loaded AEGMM detector has not been fit."]) ∧
    init_od_vaegmm c6State Option.none =
      .ok (⟨ctorMeta "OutlierVAEGMM", .pyfloat 1, .pyint 5, .none, .none,
        .none, .none, .none, Option.none⟩,
        ["Loaded VAEGMM detector has not been fit."]) :=
  ⟨c6_gmm_unfit_warn_and_proceed.1 _ c6AEGMM rfl rfl,
   c6_gmm_unfit_warn_and_proceed.2.2.1 c6State Option.none _ _ _ _ _ _
     rfl rfl rfl rfl rfl rfl rfl,
   c6_gmm_unfit_warn_and_proceed.2.2.2 c6State Option.none _ _ _ _ _ _ _
     rfl rfl rfl rfl rfl rfl rfl rfl⟩

/-- C4 as stated is false: for the AdversarialAE kind with an empty `model/`
directory but a saved non-empty `hidden_layer_kld`, the hidden-layer loader
does not check the directory — it raises on the missing positional
checkpoint, so `load_detector` crashes instead of propagating absence. -/
theorem c4_counterexample :
    load_detector "dir" c4fs =
      .error (.fileNotFoundError "dir/model/model_hl_0.ckpt.index") := rfl

/-- C4 amended: for every kind with sub-model artifacts, an existing but
empty `model/` directory makes the model-artifact loads return the
absent-model sentinel with a warning, and `load_detector` returns a detector
whose sub-model fields are absent — except that for the AdversarialAE kind
this needs the saved `hidden_layer_kld` to be falsy (absent/empty), since the
hidden-layer loader performs no directory check. -/
theorem c4_amended_empty_model_dir :
    (∀ (mv st thr : PyVal),
      dictGet mv "name" = .ok (.str "OutlierAE") →
      dictGet st "threshold" = .ok thr →
      load_detector "dir" (emptyModelDirFS "OutlierAE" mv st) =
        .ok (.outlierAE ⟨mv, thr, Option.none⟩,
          ["No encoder, decoder or ae found in " ++ pjoin "dir" "model" ++ "."])) ∧
    (∀ (mv st thr sc sm : PyVal),
      dictGet mv "name" = .ok (.str "OutlierVAE") →
      dictGet st "threshold" = .ok thr →
      dictGet st "score_type" = .ok sc →
      dictGet st "samples" = .ok sm →
      load_detector "dir" (emptyModelDirFS "OutlierVAE" mv st) =
        .ok (.outlierVAE ⟨mv, thr, sc, sm, Option.none⟩,
          ["No encoder, decoder or vae found in " ++ pjoin "dir" "model" ++ "."])) ∧
    (∀ (mv st thr phi mu cov cL ldc : PyVal),
      dictGet mv "name" = .ok (.str "OutlierAEGMM") →
      dictGet st "threshold" = .ok thr →
      dictGet st "phi" = .ok phi → dictGet st "mu" = .ok mu →
      dictGet st "cov" = .ok cov → dictGet st "L" = .ok cL →
      dictGet st "log_det_cov" = .ok ldc →
      ([phi, mu, cov, cL, ldc].all is_tensor) = false →
      load_detector "dir" (emptyModelDirFS "OutlierAEGMM" mv st) =
        .ok (.outlierAEGMM ⟨mv, thr, phi, mu, cov, cL, ldc, Option.none⟩,
          ["No encoder, decoder, gmm density net or aegmm found in " ++
            pjoin "dir" "model" ++ ".", "Loaded AEGMM detector has not been fit."])) ∧
    (∀ (mv st thr sm phi mu cov cL ldc : PyVal),
      dictGet mv "name" = .ok (.str "OutlierVAEGMM") →
      dictGet st "threshold" = .ok thr → dictGet st "samples" = .ok sm →
      dictGet st "phi" = .ok phi → dictGet st "mu" = .ok mu →
      dictGet st "cov" = .ok cov → dictGet st "L" = .ok cL →
      dictGet st "log_det_cov" = .ok ldc →
      ([phi, mu, cov, cL, ldc].all is_tensor) = false →
      load_detector "dir" (emptyModelDirFS "OutlierVAEGMM" mv st) =
        .ok (.outlierVAEGMM ⟨mv, thr, sm, phi, mu, cov, cL, ldc, Option.none⟩,
          ["No encoder, decoder, gmm density net or vaegmm found in " ++
            pjoin "dir" "model" ++ ".", "Loaded VAEGMM detector has not been fit."])) ∧
    (∀ (mv st thr wmh temp kld : PyVal),
      dictGet mv "name" = .ok (.str "AdversarialAE") →
      dictGet st "threshold" = .ok thr →
      dictGet st "w_model_hl" = .ok wmh →
      dictGet st "temperature" = .ok temp →
      dictGet st "hidden_layer_kld" = .ok kld → pyFalsy kld = true →
      load_detector "dir" (emptyModelDirFS "AdversarialAE" mv st) =
        .ok (.adversarialAE
          ⟨mv, thr, Option.none, Option.none, Option.none, wmh, temp⟩,
          ["No encoder, decoder or ae found in " ++ pjoin "dir" "model" ++ ".",
           "No model found in " ++ pjoin "dir" "model" ++ "."])) ∧
    (∀ (mv st thr ld oa s0 s1 s2 : PyVal),
      dictGet mv "name" = .ok (.str "OutlierSeq2Seq") →
      dictGet st "shape" = .ok (.list [s0, s1, s2]) →
      dictGet st "threshold" = .ok thr →
      dictGet st "latent_dim" = .ok ld →
      dictGet st "output_activation" = .ok oa →
      load_detector "dir" (emptyModelDirFS "OutlierSeq2Seq" mv st) =
        .ok (.outlierSeq2Seq ⟨mv, thr, [.pyint (-1), s1, s2], ld, oa, Option.none⟩,
          ["No seq2seq or threshold estimation net found in " ++
            pjoin "dir" "model" ++ "."])) := by
  refine ⟨?_, ?_, ?_, ?_, ?_, ?_⟩
  · intro mv st thr hname hthr
    have hls : FS.listdir
        ⟨["dir", "dir/model"],
         [("dir/meta.pickle", Blob.pickle mv), ("dir/OutlierAE.pickle", Blob.pickle st)]⟩
        "dir/model" = .ok [] := rfl
    simp [load_detector, emptyModelDirFS, FS.isdir, FS.read, alookup, hname,
      DEFAULT_DETECTORS, load_branch, load_tf_ae, hls, init_od_ae, hthr, bind,
      Except.bind, OutlierAE.new, Detector.setMeta, pjoin]
  · intro mv st thr sc sm hname hthr hsc hsm
    have hls : FS.listdir
        ⟨["dir", "dir/model"],
         [("dir/meta.pickle", Blob.pickle mv), ("dir/OutlierVAE.pickle", Blob.pickle st)]⟩
        "dir/model" = .ok [] := rfl
    simp [load_detector, emptyModelDirFS, FS.isdir, FS.read, alookup, hname,
      DEFAULT_DETECTORS, load_branch, load_tf_vae, hls, init_od_vae, hthr, hsc,
      hsm, bind, Except.bind, OutlierVAE.new, Detector.setMeta, pjoin]
  · intro mv st thr phi mu cov cL ldc hname hthr hphi hmu hcov hL hldc hfit
    have hls : FS.listdir
        ⟨["dir", "dir/model"],
         [("dir/meta.pickle", Blob.pickle mv), ("dir/OutlierAEGMM.pickle", Blob.pickle st)]⟩
        "dir/model" = .ok [] := rfl
    have hinit : init_od_aegmm st Option.none =
        .ok (⟨ctorMeta "OutlierAEGMM", thr, phi, mu, cov, cL, ldc, Option.none⟩,
          ["Loaded AEGMM detector has not been fit."]) := by
      simp only [init_od_aegmm, hthr, hphi, hmu, hcov, hL, hldc, bind,
        Except.bind, hfit, Bool.false_eq_true, if_false, OutlierAEGMM.new]
    simp [load_detector, emptyModelDirFS, FS.isdir, FS.read, alookup, hname,
      DEFAULT_DETECTORS, load_branch, load_tf_aegmm, hls, hinit,
      Detector.setMeta, pjoin]
  · intro mv st thr sm phi mu cov cL ldc hname hthr hsm hphi hmu hcov hL hldc hfit
    have hls : FS.listdir
        ⟨["dir", "dir/model"],
         [("dir/meta.pickle", Blob.pickle mv), ("dir/OutlierVAEGMM.pickle", Blob.pickle st)]⟩
        "dir/model" = .ok [] := rfl
    have hinit : init_od_vaegmm st Option.none =
        .ok (⟨ctorMeta "OutlierVAEGMM", thr, sm, phi, mu, cov, cL, ldc, Option.none⟩,
          ["Loaded VAEGMM detector has not been fit."]) := by
      simp only [init_od_vaegmm, hthr, hsm, hphi, hmu, hcov, hL, hldc, bind,
        Except.bind, hfit, Bool.false_eq_true, if_false, OutlierVAEGMM.new]
    simp [load_detector, emptyModelDirFS, FS.isdir, FS.read, alookup, hname,
      DEFAULT_DETECTORS, load_branch, load_tf_vaegmm, hls, hinit,
      Detector.setMeta, pjoin]
  · intro mv st thr wmh temp kld hname hthr hwmh htemp hkld hfalsy
    have hls : FS.listdir
        ⟨["dir", "dir/model"],
         [("dir/meta.pickle", Blob.pickle mv), ("dir/AdversarialAE.pickle", Blob.pickle st)]⟩
        "dir/model" = .ok [] := rfl
    simp [load_detector, emptyModelDirFS, FS.isdir, FS.read, alookup, hname,
      DEFAULT_DETECTORS, load_branch, load_tf_ae, load_tf_model, load_tf_hl,
      hls, init_ad_ae, hthr, hwmh, htemp, hkld, hfalsy, bind, Except.bind,
      AdversarialAE.new, Detector.setMeta, pjoin, List.contains]
  · intro mv st thr ld oa s0 s1 s2 hname hshape hthr hld hoa
    have hls : FS.listdir
        ⟨["dir", "dir/model"],
         [("dir/meta.pickle", Blob.pickle mv), ("dir/OutlierSeq2Seq.pickle", Blob.pickle st)]⟩
        "dir/model" = .ok [] := rfl
    simp [load_detector, emptyModelDirFS, FS.isdir, FS.read, alookup, hname,
      DEFAULT_DETECTORS, load_branch, load_tf_s2s, hls, init_od_s2s, hshape,
      hthr, hld, hoa, bind, Except.bind, OutlierSeq2Seq.new, Detector.setMeta,
      pjoin]

theorem c4_amended_witness :
    load_detector "dir"
      (emptyModelDirFS "OutlierAE" (.dict [("name", .str "OutlierAE")])
        (.dict [("threshold", .pyfloat 2)])) =
      .ok (.outlierAE ⟨.dict [("name", .str "OutlierAE")], .pyfloat 2, Option.none⟩,
        ["No encoder, decoder or ae found in " ++ pjoin "dir" "model" ++ "."]) :=
  c4_amended_empty_model_dir.1 _ _ _ rfl rfl

theorem string_data_inj {x y : String} (h : x.data = y.data) : x = y := by
  cases x; cases y; exact congrArg String.mk h

theorem pjoin_right_inj {a x y : String} (h : pjoin a x = pjoin a y) : x = y := by
  unfold pjoin at h
  have hd := congrArg String.data h
  rw [String.data_append, String.data_append, String.data_append,
    String.data_append] at hd
  exact string_data_inj (List.append_cancel_left hd)

theorem pjoin_append (a b c : String) : pjoin a b ++ c = pjoin a (b ++ c) := by
  unfold pjoin
  rw [String.append_assoc]

theorem save_hl_loop_eq (model_dir : String) :
    ∀ (l : List DenseHidden) (i : Nat) (fs : FS),
      (∀ m ∈ l, isKerasModel m.kind = true) →
      save_hl_loop model_dir l i fs = .ok (hlFS model_dir l i fs) := by
  intro l
  induction l with
  | nil => intro i fs _; rfl
  | cons m rest ih =>
    intro i fs h
    have hm : isKerasModel m.kind = true := h m (by simp)
    simp only [save_hl_loop, DenseHidden.save_weights, hm, if_pos, hlFS]
    exact ih (i + 1) _ (fun x hx => h x (by simp [hx]))

/-- C5 as stated is false: the hidden-layer models are written through
`save_weights` without any shape verification, so a non-keras object in the
`model_hl` list makes the whole save raise (`AttributeError`) instead of
being skipped with a warning. -/
theorem c5_counterexample :
    save_detector ad5 "dir" FS.empty = .error (.attributeError "save_weights") := rfl

theorem read_mkdir (fs : FS) (p q : String) : (fs.mkdir p).read q = fs.read q := rfl

/-- C5 amended: the fixed-arity sub-model writers (`save_tf_ae`,
`save_tf_vae`, `save_tf_aegmm`, `save_tf_vaegmm`, `save_tf_s2s`,
`save_tf_model`) verify each object's structural shape, skip failing objects
with a warning and never raise (with the encoder artifact shown written when
its check passes); the hidden-layer list, by contrast, is skipped silently
(no warning) when it is not a list, and a list of keras models is written
without the per-object verification the other writers perform. -/
theorem c5_amended_fixed_writers_verify :
    (∀ (ae : AE) (fp : String) (fs : FS),
      (save_tf_ae (some ae) fp fs).isOk = true ∧
      (isSequential ae.encoder.encoder_net = false →
        "No `tf.keras.Sequential` encoder detected. No encoder saved." ∈
          okWarnings (save_tf_ae (some ae) fp fs)) ∧
      (isSequential ae.decoder.decoder_net = false →
        "No `tf.keras.Sequential` decoder detected. No decoder saved." ∈
          okWarnings (save_tf_ae (some ae) fp fs)) ∧
      (isKerasModel ae.kind = false →
        "No `tf.keras.Model` ae detected. No ae saved." ∈
          okWarnings (save_tf_ae (some ae) fp fs)) ∧
      (isSequential ae.encoder.encoder_net = true →
        (okFS (save_tf_ae (some ae) fp fs) fs).read
            (pjoin (pjoin fp "model") "encoder_net.h5") =
          .ok (.h5 ae.encoder.encoder_net))) ∧
    (∀ (vae : VAE) (fp : String) (fs : FS),
      (save_tf_vae (some vae) fp fs).isOk = true ∧
      (isSequential vae.encoder.encoder_net = false →
        "No `tf.keras.Sequential` encoder detected. No encoder saved." ∈
          okWarnings (save_tf_vae (some vae) fp fs)) ∧
      (isSequential vae.decoder.decoder_net = false →
        "No `tf.keras.Sequential` decoder detected. No decoder saved." ∈
          okWarnings (save_tf_vae (some vae) fp fs)) ∧
      (isKerasModel vae.kind = false →
        "No `tf.keras.Model` vae detected. No vae saved." ∈
          okWarnings (save_tf_vae (some vae) fp fs))) ∧
    (∀ (m : AEGMM) (fp : String) (fs : FS),
      (save_tf_aegmm (some m) fp fs).isOk = true ∧
      (isSequential m.encoder = false →
        "No `tf.keras.Sequential` encoder detected. No encoder saved." ∈
          okWarnings (save_tf_aegmm (some m) fp fs)) ∧
      (isSequential m.decoder = false →
        "No `tf.keras.Sequential` decoder detected. No decoder saved." ∈
          okWarnings (save_tf_aegmm (some m) fp fs)) ∧
      (isSequential m.gmm_density = false →
        "No `tf.keras.Sequential` GMM density net detected. No GMM density net saved." ∈
          okWarnings (save_tf_aegmm (some m) fp fs)) ∧
      (isKerasModel m.kind = false →
        "No `tf.keras.Model` AEGMM detected. No AEGMM saved." ∈
          okWarnings (save_tf_aegmm (some m) fp fs))) ∧
    (∀ (m : VAEGMM) (fp : String) (fs : FS),
      (save_tf_vaegmm (some m) fp fs).isOk = true ∧
      (isSequential m.encoder.encoder_net = false →
        "No `tf.keras.Sequential` encoder detected. No encoder saved." ∈
          okWarnings (save_tf_vaegmm (some m) fp fs)) ∧
      (isSequential m.decoder = false →
        "No `tf.keras.Sequential` decoder detected. No decoder saved." ∈
          okWarnings (save_tf_vaegmm (some m) fp fs)) ∧
      (isSequential m.gmm_density = false →
        "No `tf.keras.Sequential` GMM density net detected. No GMM density net saved." ∈
          okWarnings (save_tf_vaegmm (some m) fp fs)) ∧
      (isKerasModel m.kind = false →
        "No `tf.keras.Model` VAEGMM detected. No VAEGMM saved." ∈
          okWarnings (save_tf_vaegmm (some m) fp fs))) ∧
    (∀ (m : Seq2Seq) (fp : String) (fs : FS),
      (save_tf_s2s (some m) fp fs).isOk = true ∧
      (isSequential m.threshold_net = false →
        "No `tf.keras.Sequential` threshold estimation net detected. No threshold net saved." ∈
          okWarnings (save_tf_s2s (some m) fp fs)) ∧
      (isKerasModel m.kind = false →
        "No `tf.keras.Model` Seq2Seq detected. No Seq2Seq model saved." ∈
          okWarnings (save_tf_s2s (some m) fp fs))) ∧
    (∀ (m : Option TFObj) (fp : String) (fs : FS),
      (save_tf_model m fp Option.none fs).isOk = true ∧
      ((match m with
        | some t => isKerasModel t.kind = false
        | Option.none => True) →
        "No `tf.keras.Model` detected. No classification model saved." ∈
          okWarnings (save_tf_model m fp Option.none fs))) ∧
    (∀ (fp : String) (fs : FS), save_tf_hl Option.none fp fs = .ok (fs, [])) ∧
    (∀ (l : List DenseHidden) (fp : String) (fs : FS),
      (∀ m ∈ l, isKerasModel m.kind = true) →
      (save_tf_hl (some l) fp fs).isOk = true) := by
  refine ⟨?_, ?_, ?_, ?_, ?_, ?_, ?_, ?_⟩
  · intro ae fp fs
    have hne1 : pjoin (pjoin fp "model") "encoder_net.h5" ≠
        pjoin (pjoin fp "model") "decoder_net.h5" := by
      intro h; exact absurd (pjoin_right_inj h) (by decide)
    have hne2 : pjoin (pjoin fp "model") "encoder_net.h5" ≠
        pjoin (pjoin fp "model") "ae.ckpt" ++ ".index" := by
      rw [pjoin_append]
      intro h; exact absurd (pjoin_right_inj h) (by decide)
    by_cases h1 : isSequential ae.encoder.encoder_net <;>
      by_cases h2 : isSequential ae.decoder.decoder_net <;>
        by_cases h3 : isKerasModel ae.kind <;>
          simp [save_tf_ae, okWarnings, okFS, h1, h2, h3, ckptSave,
            Except.isOk, Except.toBool, read_write_self,
            read_write_ne _ _ _ _ hne1, read_write_ne _ _ _ _ hne2]
  · intro vae fp fs
    by_cases h1 : isSequential vae.encoder.encoder_net <;>
      by_cases h2 : isSequential vae.decoder.decoder_net <;>
        by_cases h3 : isKerasModel vae.kind <;>
          simp [save_tf_vae, okWarnings, h1, h2, h3, Except.isOk, Except.toBool]
  · intro m fp fs
    by_cases h1 : isSequential m.encoder <;>
      by_cases h2 : isSequential m.decoder <;>
        by_cases h3 : isSequential m.gmm_density <;>
          by_cases h4 : isKerasModel m.kind <;>
            simp [save_tf_aegmm, okWarnings, h1, h2, h3, h4, Except.isOk, Except.toBool]
  · intro m fp fs
    by_cases h1 : isSequential m.encoder.encoder_net <;>
      by_cases h2 : isSequential m.decoder <;>
        by_cases h3 : isSequential m.gmm_density <;>
          by_cases h4 : isKerasModel m.kind <;>
            simp [save_tf_vaegmm, okWarnings, h1, h2, h3, h4, Except.isOk, Except.toBool]
  · intro m fp fs
    by_cases h1 : isSequential m.threshold_net <;>
      by_cases h2 : isKerasModel m.kind <;>
        simp [save_tf_s2s, okWarnings, h1, h2, Except.isOk, Except.toBool]
  · intro m fp fs
    cases m with
    | none => simp [save_tf_model, okWarnings, Except.isOk, Except.toBool]
    | some t =>
      by_cases h1 : isKerasModel t.kind <;>
        simp [save_tf_model, okWarnings, h1, Except.isOk, Except.toBool]
  · intro fp fs; rfl
  · intro l fp fs h
    simp [save_tf_hl, Except.isOk, Except.toBool,
      save_hl_loop_eq (pjoin fp "model") l 0
        (ensureModelDir fp (ensureDir fp fs).1) h]

theorem c5_amended_witness :
    (save_tf_ae (some ⟨⟨⟨.notKeras, []⟩⟩, ⟨⟨.notKeras, []⟩⟩, .notKeras, []⟩)
      "d" FS.empty).isOk = true ∧
    "No `tf.keras.Sequential` encoder detected. No encoder saved." ∈
      okWarnings (save_tf_ae
        (some ⟨⟨⟨.notKeras, []⟩⟩, ⟨⟨.notKeras, []⟩⟩, .notKeras, []⟩) "d" FS.empty) ∧
    save_tf_hl Option.none "d" FS.empty = .ok (FS.empty, []) := by
  have h := c5_amended_fixed_writers_verify
  exact ⟨(h.1 _ "d" FS.empty).1, (h.1 _ "d" FS.empty).2.1 rfl,
    h.2.2.2.2.2.2.1 "d" FS.empty⟩

/-- C8: `fetch_detector` supports only the adversarial-detector kind: whenever
the fetched metadata names any other kind, it raises `NotImplementedError`
instead of returning a detector. -/
theorem c8_fetch_only_adversarial (remote : Remote)
    (filepath detector_type dataset detector_name url nm : String)
    (model : Option String) (fs : FS) (mv st : PyVal)
    (hurl : fetch_url detector_type dataset model detector_name = .ok url)
    (hmeta : remote (pjoin url "meta.pickle") = some (.pickle mv))
    (hname : dictGet mv "name" = .ok (.str nm))
    (hst : remote (pjoin url (nm ++ ".pickle")) = some (.pickle st))
    (hne : nm ≠ "AdversarialAE") :
    fetch_detector remote filepath detector_type dataset detector_name model fs =
      .error .notImplementedError := by
  cases hED : ensureDir (pjoin filepath detector_name) fs with
  | mk fs1 w1 =>
    simp [fetch_detector, fetch_body, urlPickle, hED, hurl, hmeta, hname, hst, hne]

theorem c8_witness :
    fetch_detector c8Remote "local" "outlier" "kddcup" "if1" Option.none FS.empty =
      .error .notImplementedError :=
  c8_fetch_only_adversarial c8Remote "local" "outlier" "kddcup" "if1"
    (pjoin (pjoin (pjoin "https://storage.googleapis.com/seldon-models/alibi-detect"
      "od") "kddcup") "if1") "IForest" Option.none FS.empty _ _
    rfl rfl rfl rfl (by decide)

theorem dictGet_cons_self (k : String) (v : PyVal) (es : List (String × PyVal)) :
    dictGet (.dict ((k, v) :: es)) k = .ok v := by
  simp [dictGet, alookup]

theorem dictGet_cons_ne (k q : String) (v : PyVal) (es : List (String × PyVal))
    (h : q ≠ k) : dictGet (.dict ((k, v) :: es)) q = dictGet (.dict es) q := by
  simp [dictGet, alookup, h]

theorem dictGet_nil (q : String) :
    dictGet (.dict []) q = .error (.keyError q) := rfl

theorem cn_enc : childName "dir/model" "dir/model/encoder_net.h5" =
    some "encoder_net.h5" := by decide

theorem cn_dec : childName "dir/model" "dir/model/decoder_net.h5" =
    some "decoder_net.h5" := by decide

theorem cn_ae : childName "dir/model" "dir/model/ae.ckpt.index" =
    some "ae.ckpt.index" := by decide

theorem cn_vae : childName "dir/model" "dir/model/vae.ckpt.index" =
    some "vae.ckpt.index" := by decide

theorem cn_gmm : childName "dir/model" "dir/model/gmm_density_net.h5" =
    some "gmm_density_net.h5" := by decide

theorem cn_aegmm : childName "dir/model" "dir/model/aegmm.ckpt.index" =
    some "aegmm.ckpt.index" := by decide

theorem cn_vaegmm : childName "dir/model" "dir/model/vaegmm.ckpt.index" =
    some "vaegmm.ckpt.index" := by decide

theorem cn_model : childName "dir/model" "dir/model/model.h5" =
    some "model.h5" := by decide

theorem cn_thr : childName "dir/model" "dir/model/threshold_net.h5" =
    some "threshold_net.h5" := by decide

theorem cn_s2s : childName "dir/model" "dir/model/seq2seq.ckpt.index" =
    some "seq2seq.ckpt.index" := by decide

theorem cn_meta : childName "dir/model" "dir/meta.pickle" = Option.none := by decide

theorem cn_stAE : childName "dir/model" "dir/OutlierAE.pickle" = Option.none := by decide

theorem cn_stVAE : childName "dir/model" "dir/OutlierVAE.pickle" = Option.none := by decide

theorem cn_stAEGMM : childName "dir/model" "dir/OutlierAEGMM.pickle" =
    Option.none := by decide

theorem cn_stVAEGMM : childName "dir/model" "dir/OutlierVAEGMM.pickle" =
    Option.none := by decide

theorem cn_stADV : childName "dir/model" "dir/AdversarialAE.pickle" =
    Option.none := by decide

theorem cn_stS2S : childName "dir/model" "dir/OutlierSeq2Seq.pickle" =
    Option.none := by decide

theorem cn_dmodel : childName "dir/model" "dir/model" = Option.none := by decide

theorem cn_dtop : childName "dir/model" "dir" = Option.none := by decide

theorem rt_iforest (od : IForest)
    (hmeta : dictGet od.meta "name" = .ok (.str "IForest")) :
    roundTrips (.iforest od) := by
  simp [roundTrips, save_detector, Detector.metaOf, hmeta, DEFAULT_DETECTORS,
    state_branch, state_iforest, model_branch, ensureDir, FS.isdir, FS.mkdir,
    FS.write, FS.read, alookup, pjoin, load_detector, load_branch,
    init_od_iforest, bind, Except.bind, IForest.new, Detector.setMeta,
    stateDictOf, Detector.nameOf, List.filter, FS.empty, List.contains,
    Except.map, dictGet_cons_self, dictGet_cons_ne, dictGet_nil]

theorem rt_mahalanobis (od : Mahalanobis)
    (hmeta : dictGet od.meta "name" = .ok (.str "Mahalanobis")) :
    roundTrips (.mahalanobis od) := by
  simp [roundTrips, save_detector, Detector.metaOf, hmeta, DEFAULT_DETECTORS,
    state_branch, state_mahalanobis, model_branch, ensureDir, FS.isdir,
    FS.mkdir, FS.write, FS.read, alookup, pjoin, load_detector, load_branch,
    init_od_mahalanobis, bind, Except.bind, Mahalanobis.new, Detector.setMeta,
    stateDictOf, Detector.nameOf, List.filter, FS.empty, List.contains,
    Except.map, dictGet_cons_self, dictGet_cons_ne, dictGet_nil]

theorem rt_prophet (od : OutlierProphet)
    (hmeta : dictGet od.meta "name" = .ok (.str "OutlierProphet")) :
    roundTrips (.outlierProphet od) := by
  simp [roundTrips, save_detector, Detector.metaOf, hmeta, DEFAULT_DETECTORS,
    state_branch, state_prophet, model_branch, ensureDir, FS.isdir, FS.mkdir,
    FS.write, FS.read, alookup, pjoin, load_detector, load_branch,
    init_od_prophet, bind, Except.bind, OutlierProphet.new, Detector.setMeta,
    stateDictOf, Detector.nameOf, List.filter, FS.empty, List.contains,
    Except.map, dictGet_cons_self, dictGet_cons_ne, dictGet_nil]

theorem rt_sr (od : SpectralResidual)
    (hmeta : dictGet od.meta "name" = .ok (.str "SpectralResidual")) :
    roundTrips (.spectralResidual od) := by
  simp [roundTrips, save_detector, Detector.metaOf, hmeta, DEFAULT_DETECTORS,
    state_branch, state_sr, model_branch, ensureDir, FS.isdir, FS.mkdir,
    FS.write, FS.read, alookup, pjoin, load_detector, load_branch, init_od_sr,
    bind, Except.bind, SpectralResidual.new, Detector.setMeta, stateDictOf,
    Detector.nameOf, List.filter, FS.empty, List.contains, Except.map,
    dictGet_cons_self, dictGet_cons_ne, dictGet_nil]

theorem rt_ae (od : OutlierAE) (ae : AE) (hae : od.ae = some ae)
    (hmeta : dictGet od.meta "name" = .ok (.str "OutlierAE"))
    (he : isSequential ae.encoder.encoder_net = true)
    (hd : isSequential ae.decoder.decoder_net = true)
    (hk : isKerasModel ae.kind = true) : roundTrips (.outlierAE od) := by
  simp [roundTrips, save_detector, Detector.metaOf, hmeta, DEFAULT_DETECTORS,
    state_branch, state_ae, hae, model_branch, save_tf_ae, he, hd, hk,
    ensureDir, ensureModelDir, FS.isdir, FS.mkdir, FS.write, FS.read, alookup,
    pjoin, ckptSave, load_detector, load_branch, load_tf_ae, FS.listdir,
    FS.listNames, cn_enc, cn_dec, cn_ae, cn_stAE, cn_meta, cn_dmodel, cn_dtop,
    startsWithDot, keras_load_model, ckptLoad, init_od_ae, bind, Except.bind,
    OutlierAE.new, AE.new, AE.load_weights, Detector.setMeta, stateDictOf,
    Detector.nameOf, List.filter, FS.empty, List.contains, Except.map,
    dictGet_cons_self, dictGet_cons_ne, dictGet_nil]

theorem rt_vae (od : OutlierVAE) (v : VAE) (hv : od.vae = some v)
    (hmeta : dictGet od.meta "name" = .ok (.str "OutlierVAE"))
    (he : isSequential v.encoder.encoder_net = true)
    (hd : isSequential v.decoder.decoder_net = true)
    (hk : isKerasModel v.kind = true) : roundTrips (.outlierVAE od) := by
  simp [roundTrips, save_detector, Detector.metaOf, hmeta, DEFAULT_DETECTORS,
    state_branch, state_vae, hv, model_branch, save_tf_vae, he, hd, hk,
    ensureDir, ensureModelDir, FS.isdir, FS.mkdir, FS.write, FS.read, alookup,
    pjoin, ckptSave, load_detector, load_branch, load_tf_vae, FS.listdir,
    FS.listNames, cn_enc, cn_dec, cn_vae, cn_stVAE, cn_meta, cn_dmodel,
    cn_dtop, startsWithDot, keras_load_model, ckptLoad, init_od_vae, bind,
    Except.bind, OutlierVAE.new, VAE.new, VAE.load_weights, Detector.setMeta,
    stateDictOf, Detector.nameOf, List.filter, FS.empty, List.contains,
    Except.map, dictGet_cons_self, dictGet_cons_ne, dictGet_nil]

theorem rt_aegmm (od : OutlierAEGMM) (m : AEGMM) (hm : od.aegmm = some m)
    (hmeta : dictGet od.meta "name" = .ok (.str "OutlierAEGMM"))
    (he : isSequential m.encoder = true) (hd : isSequential m.decoder = true)
    (hg : isSequential m.gmm_density = true)
    (hk : isKerasModel m.kind = true) : roundTrips (.outlierAEGMM od) := by
  simp [roundTrips, save_detector, Detector.metaOf, hmeta, DEFAULT_DETECTORS,
    state_branch, state_aegmm, hm, model_branch, save_tf_aegmm, he, hd, hg, hk,
    ensureDir, ensureModelDir, FS.isdir, FS.mkdir, FS.write, FS.read, alookup,
    pjoin, ckptSave, load_detector, load_branch, load_tf_aegmm, FS.listdir,
    FS.listNames, cn_enc, cn_dec, cn_gmm, cn_aegmm, cn_stAEGMM, cn_meta,
    cn_dmodel, cn_dtop, startsWithDot, keras_load_model, ckptLoad,
    init_od_aegmm, bind, Except.bind, OutlierAEGMM.new, AEGMM.new,
    AEGMM.load_weights, Detector.setMeta, stateDictOf, Detector.nameOf,
    List.filter, FS.empty, List.contains, Except.map, dictGet_cons_self,
    dictGet_cons_ne, dictGet_nil]

theorem rt_vaegmm (od : OutlierVAEGMM) (m : VAEGMM) (hm : od.vaegmm = some m)
    (hmeta : dictGet od.meta "name" = .ok (.str "OutlierVAEGMM"))
    (he : isSequential m.encoder.encoder_net = true)
    (hd : isSequential m.decoder = true)
    (hg : isSequential m.gmm_density = true)
    (hk : isKerasModel m.kind = true) : roundTrips (.outlierVAEGMM od) := by
  simp [roundTrips, save_detector, Detector.metaOf, hmeta, DEFAULT_DETECTORS,
    state_branch, state_vaegmm, hm, model_branch, save_tf_vaegmm, he, hd, hg,
    hk, ensureDir, ensureModelDir, FS.isdir, FS.mkdir, FS.write, FS.read,
    alookup, pjoin, ckptSave, load_detector, load_branch, load_tf_vaegmm,
    FS.listdir, FS.listNames, cn_enc, cn_dec, cn_gmm, cn_vaegmm, cn_stVAEGMM,
    cn_meta, cn_dmodel, cn_dtop, startsWithDot, keras_load_model, ckptLoad,
    init_od_vaegmm, bind, Except.bind, OutlierVAEGMM.new, VAEGMM.new,
    VAEGMM.load_weights, Detector.setMeta, stateDictOf, Detector.nameOf,
    List.filter, FS.empty, List.contains, Except.map, dictGet_cons_self,
    dictGet_cons_ne, dictGet_nil]

theorem rt_s2s (od : OutlierSeq2Seq) (s : Seq2Seq) (a b : PyVal)
    (hs : od.seq2seq = some s)
    (hmeta : dictGet od.meta "name" = .ok (.str "OutlierSeq2Seq"))
    (ht : isSequential s.threshold_net = true)
    (hk : isKerasModel s.kind = true)
    (hshape : od.shape = [.pyint (-1), a, b]) :
    roundTrips (.outlierSeq2Seq od) := by
  simp [roundTrips, save_detector, Detector.metaOf, hmeta, DEFAULT_DETECTORS,
    state_branch, state_s2s, hs, hshape, model_branch, save_tf_s2s, ht, hk,
    ensureDir, ensureModelDir, FS.isdir, FS.mkdir, FS.write, FS.read, alookup,
    pjoin, ckptSave, load_detector, load_branch, load_tf_s2s, FS.listdir,
    FS.listNames, cn_thr, cn_s2s, cn_stS2S, cn_meta, cn_dmodel, cn_dtop,
    startsWithDot, keras_load_model, ckptLoad, init_od_s2s, bind, Except.bind,
    OutlierSeq2Seq.new, Seq2Seq.new, Seq2Seq.load_weights, Detector.setMeta,
    stateDictOf, Detector.nameOf, List.filter, FS.empty, List.contains,
    Except.map, dictGet_cons_self, dictGet_cons_ne, dictGet_nil]

theorem hlIdxKey_data (i : Nat) :
    (hlIdxKey i).data =
      "dir/model/model_hl_".data ++ ((pyStr i).data ++ ".ckpt.index".data) := by
  have hA : "dir/model".data ++ "/".data ++ "model_hl_".data =
      "dir/model/model_hl_".data := by decide
  have hB : ".ckpt.index".data = ".ckpt".data ++ ".index".data := by decide
  simp only [hlIdxKey, hlCkpt, pjoin, String.data_append, hB,
    ← List.append_assoc, hA]
  rw [List.append_assoc]
  congr 1

theorem hlIdxKey_inj {i j : Nat} (h : hlIdxKey i = hlIdxKey j) : i = j := by
  have hd := congrArg String.data h
  rw [hlIdxKey_data, hlIdxKey_data] at hd
  exact pyStr_inj (string_data_inj (List.append_cancel_right
    (List.append_cancel_left hd)))

theorem hlIdxKey_ne (q : String) (i : Nat)
    (h : ¬ ("dir/model/model_hl_".data <+: q.data)) : hlIdxKey i ≠ q := by
  intro heq
  apply h
  rw [← heq, hlIdxKey_data]
  exact ⟨_, rfl⟩

theorem hlFS_dirs (l : List DenseHidden) :
    ∀ (i : Nat) (fs : FS), (hlFS "dir/model" l i fs).dirs = fs.dirs := by
  induction l with
  | nil => intro i fs; rfl
  | cons m rest ih => intro i fs; rw [hlFS, ih]; rfl

theorem hlFS_read_frame (l : List DenseHidden) :
    ∀ (i : Nat) (fs : FS) (q : String), (∀ j : Nat, q ≠ hlIdxKey (i + j)) →
      (hlFS "dir/model" l i fs).read q = fs.read q := by
  induction l with
  | nil => intro i fs q _; rfl
  | cons m rest ih =>
    intro i fs q h
    rw [hlFS, ih (i + 1) _ q (fun j => by
      have h2 := h (1 + j)
      rw [show i + (1 + j) = i + 1 + j by omega] at h2
      exact h2)]
    exact read_write_ne _ _ _ _ (by
      have h2 := h 0
      rwa [Nat.add_zero] at h2)

theorem hlFS_read_back (l : List DenseHidden) :
    ∀ (i : Nat) (fs : FS) (j : Nat) (hj : j < l.length),
      (hlFS "dir/model" l i fs).read (hlIdxKey (i + j)) =
        .ok (.ckpt ((l.get ⟨j, hj⟩).weights)) := by
  induction l with
  | nil => intro i fs j hj; cases hj
  | cons m rest ih =>
    intro i fs j hj
    cases j with
    | zero =>
      rw [Nat.add_zero, hlFS]
      rw [hlFS_read_frame rest (i + 1) _ (hlIdxKey i) (fun j' => by
        intro heq
        have := hlIdxKey_inj heq
        omega)]
      exact read_write_self _ _ _
    | succ j' =>
      rw [hlFS, show i + (j' + 1) = (i + 1) + j' by omega]
      exact ih (i + 1) _ j' (Nat.lt_of_succ_lt_succ hj)

theorem hlFS_mem_files (l : List DenseHidden) :
    ∀ (i : Nat) (fs : FS) (q : String) (b : Blob), (q, b) ∈ fs.files →
      (∀ j : Nat, q ≠ hlIdxKey (i + j)) →
      (q, b) ∈ (hlFS "dir/model" l i fs).files := by
  induction l with
  | nil => intro i fs q b hm _; exact hm
  | cons m rest ih =>
    intro i fs q b hm h
    rw [hlFS]
    refine ih (i + 1) _ q b ?_ (fun j => by
      have h2 := h (1 + j)
      rw [show i + (1 + j) = i + 1 + j by omega] at h2
      exact h2)
    exact mem_write_of_ne _ _ _ _ _ hm (by
      have h2 := h 0
      rwa [Nat.add_zero] at h2)

theorem load_hl_loop_map (fsAll : FS) (model' : Option TFObj)
    (l : List DenseHidden) :
    ∀ i : Nat,
      (∀ (j : Nat) (hj : j < l.length),
        ckptLoad fsAll (hlCkpt (i + j)) = .ok ((l.get ⟨j, hj⟩).weights)) →
      load_hl_loop fsAll "dir/model" model'
          (l.map (fun m => (m.hidden_layer, m.output_dim))) i =
        .ok (l.map (fun m =>
          ⟨model', m.hidden_layer, m.output_dim, .kmodel, m.weights⟩)) := by
  induction l with
  | nil => intro i _; rfl
  | cons m rest ih =>
    intro i hread
    have h0 : ckptLoad fsAll (hlCkpt i) = .ok m.weights := by
      have := hread 0 (by simp)
      rwa [Nat.add_zero] at this
    rw [List.map_cons, load_hl_loop]
    rw [show pjoin "dir/model" ("model_hl_" ++ pyStr i ++ ".ckpt") = hlCkpt i
      from rfl, h0]
    rw [ih (i + 1) (fun j hj => by
      have := hread (j + 1) (by simpa using Nat.succ_lt_succ hj)
      rwa [show i + (j + 1) = (i + 1) + j by omega] at this)]
    rfl

theorem mem_listNames (fs : FS) (d p nm : String) (b : Blob)
    (hmem : (p, b) ∈ fs.files) (hcn : childName d p = some nm) :
    nm ∈ fs.listNames d :=
  List.mem_filterMap.mpr
    ⟨p, List.mem_append_left _ (List.mem_map.mpr ⟨(p, b), hmem, rfl⟩), hcn⟩

theorem filter_isEmpty_false {es : List String} {f : String → Bool} {x : String}
    (hx : x ∈ es) (hfx : f x = true) : (es.filter f).isEmpty = false := by
  have hmem := List.mem_filter.mpr ⟨hx, hfx⟩
  cases hfil : es.filter f with
  | nil => rw [hfil] at hmem; cases hmem
  | cons a t => rfl

theorem contains_of_mem {l : List String} {a : String} (h : a ∈ l) :
    l.contains a = true :=
  List.elem_iff.mpr h

theorem swd_model : startsWithDot "model.h5" = false := by decide

theorem load_adv_hl (mv thr wmh temp : PyVal) (enc dec : TFObj)
    (aw : List Int) (clf : TFObj) (l : List DenseHidden)
    (hmv : dictGet mv "name" = .ok (.str "AdversarialAE")) (hlne : l ≠ []) :
    load_detector "dir" (hlFS "dir/model" l 0 (advPre mv thr wmh temp enc dec aw clf l)) =
      .ok (.adversarialAE ⟨mv, thr, some ⟨⟨enc⟩, ⟨dec⟩, .kmodel, aw⟩, some clf,
        some (l.map fun m =>
          ⟨some clf, m.hidden_layer, m.output_dim, .kmodel, m.weights⟩),
        wmh, temp⟩, []) := by
  have hfr : ∀ (q : String), (∀ j : Nat, q ≠ hlIdxKey (0 + j)) →
      (hlFS "dir/model" l 0 (advPre mv thr wmh temp enc dec aw clf l)).read q =
        (advPre mv thr wmh temp enc dec aw clf l).read q :=
    hlFS_read_frame l 0 _
  have hq1 : (hlFS "dir/model" l 0 (advPre mv thr wmh temp enc dec aw clf l)).read
      "dir/meta.pickle" = .ok (.pickle mv) := by
    rw [hfr _ (fun j => (hlIdxKey_ne _ _ (by decide)).symm)]; rfl
  have hq2 : (hlFS "dir/model" l 0 (advPre mv thr wmh temp enc dec aw clf l)).read
      "dir/AdversarialAE.pickle" = .ok (.pickle (.dict
        [("threshold", thr), ("w_model_hl", wmh), ("temperature", temp),
         ("hidden_layer_kld",
           .dict (l.map (fun m => (m.hidden_layer, m.output_dim))))])) := by
    rw [hfr _ (fun j => (hlIdxKey_ne _ _ (by decide)).symm)]; rfl
  have hq3 : (hlFS "dir/model" l 0 (advPre mv thr wmh temp enc dec aw clf l)).read
      "dir/model/encoder_net.h5" = .ok (.h5 enc) := by
    rw [hfr _ (fun j => (hlIdxKey_ne _ _ (by decide)).symm)]; rfl
  have hq4 : (hlFS "dir/model" l 0 (advPre mv thr wmh temp enc dec aw clf l)).read
      "dir/model/decoder_net.h5" = .ok (.h5 dec) := by
    rw [hfr _ (fun j => (hlIdxKey_ne _ _ (by decide)).symm)]; rfl
  have hq5 : (hlFS "dir/model" l 0 (advPre mv thr wmh temp enc dec aw clf l)).read
      "dir/model/ae.ckpt.index" = .ok (.ckpt aw) := by
    rw [hfr _ (fun j => (hlIdxKey_ne _ _ (by decide)).symm)]; rfl
  have hq6 : (hlFS "dir/model" l 0 (advPre mv thr wmh temp enc dec aw clf l)).read
      "dir/model/model.h5" = .ok (.h5 clf) := by
    rw [hfr _ (fun j => (hlIdxKey_ne _ _ (by decide)).symm)]; rfl
  have hdirs : (hlFS "dir/model" l 0 (advPre mv thr wmh temp enc dec aw clf l)).dirs =
      ["dir/model", "dir"] := hlFS_dirs l 0 _
  have hmenc : ("dir/model/encoder_net.h5", Blob.h5 enc) ∈
      (hlFS "dir/model" l 0 (advPre mv thr wmh temp enc dec aw clf l)).files :=
    hlFS_mem_files l 0 _ _ _ (by simp [advPre])
      (fun j => (hlIdxKey_ne _ _ (by decide)).symm)
  have hmmod : ("dir/model/model.h5", Blob.h5 clf) ∈
      (hlFS "dir/model" l 0 (advPre mv thr wmh temp enc dec aw clf l)).files :=
    hlFS_mem_files l 0 _ _ _ (by simp [advPre])
      (fun j => (hlIdxKey_ne _ _ (by decide)).symm)
  have hemp : (((hlFS "dir/model" l 0
      (advPre mv thr wmh temp enc dec aw clf l)).listNames "dir/model").filter
        (fun f => !(startsWithDot f))).isEmpty = false :=
    filter_isEmpty_false (mem_listNames _ _ _ _ _ hmenc cn_enc) rfl
  have hct : "model.h5" ∈ (hlFS "dir/model" l 0
      (advPre mv thr wmh temp enc dec aw clf l)).listNames "dir/model" :=
    mem_listNames _ _ _ _ _ hmmod cn_model
  have hread : ∀ (j : Nat) (hj : j < l.length),
      ckptLoad (hlFS "dir/model" l 0 (advPre mv thr wmh temp enc dec aw clf l))
        (hlCkpt (0 + j)) = .ok ((l.get ⟨j, hj⟩).weights) := by
    intro j hj
    rw [ckptLoad, show hlCkpt (0 + j) ++ ".index" = hlIdxKey (0 + j) from rfl,
      hlFS_read_back l 0 _ j hj]
  have hloop := load_hl_loop_map
    (hlFS "dir/model" l 0 (advPre mv thr wmh temp enc dec aw clf l))
    (some clf) l 0 hread
  simp [load_detector, FS.isdir, hdirs, hq1, hq2, hq3, hq4, hq5, hq6, hmv,
    DEFAULT_DETECTORS, load_branch, load_tf_ae, load_tf_model, load_tf_hl,
    FS.listdir, hemp, hct, swd_model, keras_load_model, ckptLoad, pjoin, hloop,
    init_ad_ae, bind, Except.bind, AdversarialAE.new, AE.new, AE.load_weights,
    Detector.setMeta, pyFalsy, hlne, dictGet_cons_self, dictGet_cons_ne,
    dictGet_nil, List.contains]

theorem rt_adv (ad : AdversarialAE) (ae : AE) (clf : TFObj)
    (hmeta : dictGet ad.meta "name" = .ok (.str "AdversarialAE"))
    (hae : ad.ae = some ae)
    (he : isSequential ae.encoder.encoder_net = true)
    (hd : isSequential ae.decoder.decoder_net = true)
    (hk : isKerasModel ae.kind = true)
    (hclf : ad.model = some clf) (hck : isKerasModel clf.kind = true)
    (hhl : ad.model_hl = Option.none ∨ ∃ l, ad.model_hl = some l ∧ l ≠ [] ∧
      ∀ m ∈ l, isKerasModel m.kind = true) :
    roundTrips (.adversarialAE ad) := by
  rcases hhl with hnone | ⟨l, hsome, hlne, hall⟩
  · simp [roundTrips, save_detector, Detector.metaOf, hmeta, DEFAULT_DETECTORS,
      state_branch, state_adv_ae, AdversarialAE.hidden_layer_kld, hae, hclf, hck,
      hnone, model_branch, save_tf_ae, save_tf_model, save_tf_hl, he, hd, hk,
      ensureDir, ensureModelDir, FS.isdir, FS.mkdir, FS.write, FS.read, alookup,
      pjoin, ckptSave, load_detector, load_branch, load_tf_ae, load_tf_model,
      load_tf_hl, pyFalsy, FS.listdir, FS.listNames, cn_enc, cn_dec, cn_ae,
      cn_model, cn_stADV, cn_meta, cn_dmodel, cn_dtop, startsWithDot,
      keras_load_model, ckptLoad, init_ad_ae, bind, Except.bind,
      AdversarialAE.new, AE.new, AE.load_weights, Detector.setMeta, stateDictOf,
      Detector.nameOf, List.filter, FS.empty, List.contains, Except.map,
      dictGet_cons_self, dictGet_cons_ne, dictGet_nil]
  · simp only [roundTrips]
    simp [save_detector, Detector.metaOf, hmeta,
      DEFAULT_DETECTORS, state_branch, state_adv_ae,
      AdversarialAE.hidden_layer_kld, hae, hclf, hck, hsome, model_branch,
      save_tf_ae, save_tf_model, save_tf_hl, he, hd, hk, ensureDir,
      ensureModelDir, FS.isdir, FS.mkdir, FS.write, pjoin, ckptSave, FS.empty,
      List.contains, Except.map]
    rw [show (⟨["dir/model", "dir"],
      [("dir/model/model.h5", Blob.h5 clf),
        ("dir/model/ae.ckpt.index", Blob.ckpt ae.weights),
        ("dir/model/decoder_net.h5", Blob.h5 ae.decoder.decoder_net),
        ("dir/model/encoder_net.h5", Blob.h5 ae.encoder.encoder_net),
        ("dir/AdversarialAE.pickle", Blob.pickle (PyVal.dict
          [("threshold", ad.threshold), ("w_model_hl", ad.w_model_hl),
           ("temperature", ad.temperature),
           ("hidden_layer_kld",
             PyVal.dict (List.map (fun m => (m.hidden_layer, m.output_dim)) l))])),
        ("dir/meta.pickle", Blob.pickle ad.meta)]⟩ : FS) =
      advPre ad.meta ad.threshold ad.w_model_hl ad.temperature
        ae.encoder.encoder_net ae.decoder.decoder_net ae.weights clf l from rfl]
    rw [save_hl_loop_eq "dir/model" l 0 _ hall]
    dsimp only
    rw [load_adv_hl ad.meta ad.threshold ad.w_model_hl ad.temperature
      ae.encoder.encoder_net ae.decoder.decoder_net ae.weights clf l hmeta hlne]
    dsimp only
    simp [stateDictOf, Detector.nameOf, state_branch, state_adv_ae,
      AdversarialAE.hidden_layer_kld, hsome, List.map_map, Function.comp]
    rfl

/-- C1: for every supported detector kind, loading the directory written by
`save_detector` yields a detector whose state record — the fields its kind's
`state_*` function extracts — is field-for-field equal to the original's,
for fit as well as unfit instances (the state fields range over arbitrary
values, tensors or sentinels alike). -/
theorem c1_state_round_trip (d : Detector) (h : WF d) : roundTrips d := by
  cases d with
  | iforest od => exact rt_iforest od h
  | mahalanobis od => exact rt_mahalanobis od h
  | outlierProphet od => exact rt_prophet od h
  | spectralResidual od => exact rt_sr od h
  | outlierAE od =>
    obtain ⟨hm, ae, hae, he, hd, hk⟩ := h
    exact rt_ae od ae hae hm he hd hk
  | outlierVAE od =>
    obtain ⟨hm, v, hv, he, hd, hk⟩ := h
    exact rt_vae od v hv hm he hd hk
  | outlierAEGMM od =>
    obtain ⟨hm, m, hmm, he, hd, hg, hk⟩ := h
    exact rt_aegmm od m hmm hm he hd hg hk
  | outlierVAEGMM od =>
    obtain ⟨hm, m, hmm, he, hd, hg, hk⟩ := h
    exact rt_vaegmm od m hmm hm he hd hg hk
  | outlierSeq2Seq od =>
    obtain ⟨hm, ⟨s, hs, ht, hk⟩, a, b, hshape⟩ := h
    exact rt_s2s od s a b hs hm ht hk hshape
  | adversarialAE ad =>
    obtain ⟨hm, ⟨ae, hae, he, hd, hk⟩, ⟨clf, hclf, hck⟩, hhl⟩ := h
    exact rt_adv ad ae clf hm hae he hd hk hclf hck hhl

theorem c1_witness : roundTrips c1d :=
  c1_state_round_trip c1d
    ⟨rfl, ⟨aeC, rfl, rfl, rfl, rfl⟩, ⟨clfC, rfl, rfl⟩,
      Or.inr ⟨_, rfl, by simp, by decide⟩⟩

/-- C3: hidden-layer ordering. Concretely, saving with descriptors
`{layer_a: 10, layer_b: 5}` and loading reconstructs auxiliary model 0 bound
to `layer_a` (with the first saved weights) and model 1 bound to `layer_b`.
In general, the `i`-th model in the list is saved to the `i`-th positional
checkpoint, and loading rebinds the `i`-th entry of the descriptor mapping,
in insertion order, to the `i`-th checkpoint's weights. -/
theorem c3_hidden_layer_ordering :
    (match save_detector ad3 "dir" FS.empty with
      | .ok (fs', _) =>
        match load_detector "dir" fs' with
        | .ok (.adversarialAE ad', _) =>
          ad'.model_hl = some
            [⟨some clfC, "layer_a", .pyint 10, .kmodel, [11, 12]⟩,
             ⟨some clfC, "layer_b", .pyint 5, .kmodel, [13]⟩]
        | _ => False
      | _ => False) ∧
    (∀ (l : List DenseHidden), (∀ m ∈ l, isKerasModel m.kind = true) →
      ∀ (fs : FS), ∃ (fs' : FS) (w : Warnings),
        save_tf_hl (some l) "dir" fs = .ok (fs', w) ∧
        ∀ (j : Nat) (hj : j < l.length),
          ckptLoad fs' (hlCkpt j) = .ok ((l.get ⟨j, hj⟩).weights)) ∧
    (∀ (l : List DenseHidden) (model' : Option TFObj) (fs fs' : FS)
        (w : Warnings) (st : PyVal),
      (∀ m ∈ l, isKerasModel m.kind = true) → l ≠ [] →
      save_tf_hl (some l) "dir" fs = .ok (fs', w) →
      dictGet st "hidden_layer_kld" =
        .ok (.dict (l.map (fun m => (m.hidden_layer, m.output_dim)))) →
      load_tf_hl "dir" model' st fs' =
        .ok (some (l.map (fun m =>
          ⟨model', m.hidden_layer, m.output_dim, .kmodel, m.weights⟩)))) := by
  refine ⟨by rfl, ?_, ?_⟩
  · intro l hall fs
    refine ⟨hlFS "dir/model" l 0 (ensureModelDir "dir" (ensureDir "dir" fs).1),
      (ensureDir "dir" fs).2, ?_, ?_⟩
    · simp [save_tf_hl, pjoin, save_hl_loop_eq "dir/model" l 0
        (ensureModelDir "dir" (ensureDir "dir" fs).1) hall]
    · intro j hj
      rw [ckptLoad, show hlCkpt j ++ ".index" = hlIdxKey j from rfl]
      have hrb := hlFS_read_back l 0
        (ensureModelDir "dir" (ensureDir "dir" fs).1) j hj
      rw [Nat.zero_add] at hrb
      rw [hrb]
  · intro l model' fs fs' w st hall hlne hsave hst
    have heq : save_tf_hl (some l) "dir" fs =
        .ok (hlFS "dir/model" l 0 (ensureModelDir "dir" (ensureDir "dir" fs).1),
          (ensureDir "dir" fs).2) := by
      simp [save_tf_hl, pjoin, save_hl_loop_eq "dir/model" l 0
        (ensureModelDir "dir" (ensureDir "dir" fs).1) hall]
    rw [heq] at hsave
    injection hsave with hpair
    have hfs' : fs' =
        hlFS "dir/model" l 0 (ensureModelDir "dir" (ensureDir "dir" fs).1) :=
      (congrArg Prod.fst hpair).symm
    subst hfs'
    have hread : ∀ (j : Nat) (hj : j < l.length),
        ckptLoad (hlFS "dir/model" l 0
            (ensureModelDir "dir" (ensureDir "dir" fs).1)) (hlCkpt (0 + j)) =
          .ok ((l.get ⟨j, hj⟩).weights) := by
      intro j hj
      rw [ckptLoad, show hlCkpt (0 + j) ++ ".index" = hlIdxKey (0 + j) from rfl,
        hlFS_read_back l 0 _ j hj]
    have hloop := load_hl_loop_map
      (hlFS "dir/model" l 0 (ensureModelDir "dir" (ensureDir "dir" fs).1))
      model' l 0 hread
    simp [load_tf_hl, hst, pyFalsy, hlne, pjoin, hloop]

theorem c3_witness :
    load_tf_hl "dir" Option.none c3st c3fs =
      .ok (some [⟨Option.none, "a", .pyint 3, .kmodel, [7]⟩]) :=
  c3_hidden_layer_ordering.2.2 c3l Option.none FS.empty c3fs
    ["Directory dir does not exist and is now created."] c3st (by decide)
    (by simp [c3l]) rfl rfl

end AlibiDetect
